import Mathlib

/-!
# Rainmeter: `Gfx::Canvas` and `MeterShape`

A shallow embedding of `Common/Gfx/Canvas.cpp` and `Library/MeterShape.cpp`.

* `Gfx.Canvas` is the record of the members of `Gfx::Canvas`; every member
  function is a function on that record.  Calls that the canvas issues to
  GDI+ and to the Direct2D render target are appended to the `calls` member
  together with a snapshot of the session at the time of the call.
* The `FLOAT` entries of the transforms are kept abstract (`Gfx.Real32`): no
  algebraic law of floating point arithmetic is assumed anywhere.
* `MeterShape` is the record of the members of the class of that name; the
  parser, the shape classes and the standard library are parameters.
-/

namespace Gfx

/-- The operations of `FLOAT` that `Canvas.cpp` uses.  `isZero x` is `x == 0.0f`,
`isPos x` is `x > 0.0f`, `ofInt n` is `(FLOAT)n`; `cosDeg` and `sinDeg` are the
cosine and sine of an angle in degrees used by GDI+ rotations. -/
class Real32 (F : Type) where
  zero : F
  one : F
  add : F → F → F
  mul : F → F → F
  neg : F → F
  cosDeg : F → F
  sinDeg : F → F
  ofInt : Int → F
  isZero : F → Bool
  isPos : F → Bool

/-- The six elements shared by `Gdiplus::Matrix::GetElements` and
`D2D1_MATRIX_3X2_F` (`_11 _12 _21 _22 _31 _32`). -/
structure Matrix3x2 (F : Type) where
  m11 : F
  m12 : F
  m21 : F
  m22 : F
  m31 : F
  m32 : F
deriving DecidableEq, Repr

namespace Matrix3x2

variable {F : Type} [Real32 F]

/-- `D2D1::Matrix3x2F::Identity()`, also the value of a fresh `Gdiplus::Matrix`. -/
def Identity : Matrix3x2 F :=
  ⟨Real32.one, Real32.zero, Real32.zero, Real32.one, Real32.zero, Real32.zero⟩

/-- `D2D1::Matrix3x2F::Translation(x, y)`. -/
def Translation (x y : F) : Matrix3x2 F :=
  ⟨Real32.one, Real32.zero, Real32.zero, Real32.one, x, y⟩

/-- Rotation by `angle` degrees as built by `Gdiplus::Matrix::Rotate`. -/
def Rotation (angle : F) : Matrix3x2 F :=
  ⟨Real32.cosDeg angle, Real32.sinDeg angle,
   Real32.neg (Real32.sinDeg angle), Real32.cosDeg angle, Real32.zero, Real32.zero⟩

/-- `D2D1::Matrix3x2F::SetProduct(a, b)`, the value of `a * b`. -/
def SetProduct (a b : Matrix3x2 F) : Matrix3x2 F :=
  ⟨Real32.add (Real32.mul a.m11 b.m11) (Real32.mul a.m12 b.m21),
   Real32.add (Real32.mul a.m11 b.m12) (Real32.mul a.m12 b.m22),
   Real32.add (Real32.mul a.m21 b.m11) (Real32.mul a.m22 b.m21),
   Real32.add (Real32.mul a.m21 b.m12) (Real32.mul a.m22 b.m22),
   Real32.add (Real32.add (Real32.mul a.m31 b.m11) (Real32.mul a.m32 b.m21)) b.m31,
   Real32.add (Real32.add (Real32.mul a.m31 b.m12) (Real32.mul a.m32 b.m22)) b.m32⟩

end Matrix3x2

/-- `Gdiplus::Color`: the four bytes of an ARGB value. -/
structure Color where
  a : Nat
  r : Nat
  g : Nat
  b : Nat
deriving DecidableEq, Repr

/-- The 32-bit premultiplied BGRA pixel (`PixelFormat32bppPARGB`) that a clear
with `color` stores: alpha in the top byte, colour channels scaled by alpha. -/
def Color.toPARGB (color : Color) : Nat :=
  ((color.a % 256) <<< 24) ||| (((color.r % 256) * (color.a % 256) / 255) <<< 16) |||
  (((color.g % 256) * (color.a % 256) / 255) <<< 8) ||| ((color.b % 256) * (color.a % 256) / 255)

/-- `Gdiplus::Rect`. -/
structure Rect where
  X : Int
  Y : Int
  Width : Int
  Height : Int
deriving DecidableEq, Repr

/-- The state of the `ID2D1RenderTarget` held in `m_Target` during a session. -/
structure RenderTarget (F : Type) where
  transform : Matrix3x2 F
  textGrayscale : Bool
  aliased : Bool
deriving DecidableEq, Repr

/-- The state of `*m_GdipGraphics` that the canvas sets. -/
structure Graphics (F : Type) where
  transform : Matrix3x2 F
  smoothingHighQuality : Bool
  pixelOffsetHighQuality : Bool
deriving DecidableEq, Repr

/-- Calls issued by the canvas to GDI+ (`gdip...`), to the render target
(`target...`) and to the bitmaps it locks. -/
inductive Call where
  | gdipClear (color : Color)
  | gdipFillRectangle (rect : Rect)
  | gdipDrawImage (dstRect srcRect : Rect)
  | targetBeginDraw
  | targetEndDraw
  | targetClear (color : Color)
  | targetCreateSolidColorBrush
  | targetFillRectangle (rect : Rect)
  | lockBitsRead
  | unlockBits
  | targetCreateSharedBitmap
  | targetDrawBitmap (dstRect srcRect : Rect)
  | targetCreateBitmapBrush
  | maskLockBitsRead
  | maskUnlockBits
  | targetFillOpacityMask
  | targetPushAxisAlignedClip
  | targetPushLayer
  | targetPopAxisAlignedClip
  | targetPopLayer
  | applyInlineColoring
  | applyInlineShadow
  | targetDrawTextLayout
  | targetFillGeometry
  | targetDrawGeometry
deriving DecidableEq, Repr

/-- A GDI+ draw: `Graphics::Clear`, `Graphics::FillRectangle`, `Graphics::DrawImage`. -/
def Call.isGdipDraw : Call → Bool
  | .gdipClear _ => true
  | .gdipFillRectangle _ => true
  | .gdipDrawImage _ _ => true
  | _ => false

/-- A call together with what the canvas held when it was issued: whether
`m_Target` was non-null and, if so, the transform of the session. -/
structure Event (F : Type) where
  call : Call
  targetLive : Bool
  transform : Option (Matrix3x2 F)
deriving DecidableEq, Repr

/-- Outcomes of the fallible platform calls made during one canvas operation. -/
structure Ext where
  createTargetOk : Bool
  createBrushOk : Bool
  lockOk : Bool
  sharedBitmapOk : Bool
  bitmapBrushOk : Bool
  maskLockOk : Bool
  maskSharedBitmapOk : Bool
  createLayoutOk : Bool
deriving DecidableEq, Repr

/-- The members of `TextFormatD2D` that `DrawTextW` branches on. -/
structure TextFormat where
  m_Trimming : Bool
deriving DecidableEq, Repr

/-- The members of `Gfx::Shape` that `DrawGeometry` reads. -/
structure DrawnShape (F : Type) where
  shapeMatrix : Matrix3x2 F
  fillAlpha : F
  strokeAlpha : F
  m_StrokeWidth : F
deriving DecidableEq, Repr

/-- The members of `Gfx::Canvas` once `Resize` has created `m_GdipGraphics`.
`m_Bitmap` is `none` when `m_Bitmap.GetData()` is null; it follows the pixel
buffer through `Resize` and `Clear` only, the pixels written by the other draws
are not part of the embedding.  `calls` is the record of the calls issued. -/
structure Canvas (F : Type) where
  m_W : Int
  m_H : Int
  m_Bitmap : Option (List Nat)
  m_Target : Option (RenderTarget F)
  m_GdipGraphics : Graphics F
  m_TextAntiAliasing : Bool
  m_CanUseAxisAlignClip : Bool
  m_AccurateText : Bool
  calls : List (Event F)
deriving DecidableEq, Repr

namespace Canvas

variable {F : Type} [Real32 F]

/-- Record a call with the session state at the time of the call. -/
def emit (call : Call) (c : Canvas F) : Canvas F :=
  { c with calls := c.calls ++ [⟨call, c.m_Target.isSome, c.m_Target.map (fun t => t.transform)⟩] }

/-- `Canvas::Resize`. -/
def Resize (w h : Int) (allocOk : Bool) (c : Canvas F) : Canvas F :=
  { c with
    m_W := w
    m_H := h
    m_Target := none
    m_Bitmap := if allocOk then some (List.replicate (w * h).toNat 0) else none
    m_GdipGraphics := ⟨Matrix3x2.Identity, false, false⟩ }

/-- `Canvas::BeginDraw`. -/
def BeginDraw (c : Canvas F) : Bool × Canvas F := (true, c)

/-- `Canvas::EndTargetDraw`. -/
def EndTargetDraw (c : Canvas F) : Canvas F :=
  match c.m_Target with
  | some _ => { c.emit .targetEndDraw with m_Target := none }
  | none => c

/-- `Canvas::EndDraw`. -/
def EndDraw (c : Canvas F) : Canvas F := EndTargetDraw c

/-- `m_Target->SetTransform(matrix)`; the callers hold a non-null `m_Target`. -/
def targetSetTransform (matrix : Matrix3x2 F) (c : Canvas F) : Canvas F :=
  match c.m_Target with
  | some t => { c with m_Target := some { t with transform := matrix } }
  | none => c

/-- `m_Target->SetAntialiasMode`; the callers hold a non-null `m_Target`. -/
def targetSetAliased (aliased : Bool) (c : Canvas F) : Canvas F :=
  match c.m_Target with
  | some t => { c with m_Target := some { t with aliased := aliased } }
  | none => c

/-- `Canvas::UpdateTargetTransform`; its callers hold a non-null `m_Target`. -/
def UpdateTargetTransform (c : Canvas F) : Canvas F :=
  let d2dMatrix := c.m_GdipGraphics.transform
  let c1 := targetSetTransform d2dMatrix c
  { c1 with
    m_CanUseAxisAlignClip :=
      Real32.isZero d2dMatrix.m12 && Real32.isZero d2dMatrix.m21 &&
      Real32.isZero d2dMatrix.m31 && Real32.isZero d2dMatrix.m32 }

/-- `Canvas::SetTextAntiAliasing`. -/
def SetTextAntiAliasing (enable : Bool) (c : Canvas F) : Canvas F :=
  let c1 := { c with m_TextAntiAliasing := enable }
  match c1.m_Target with
  | some t => { c1 with m_Target := some { t with textGrayscale := c1.m_TextAntiAliasing } }
  | none => c1

/-- `Canvas::SetAntiAliasing`. -/
def SetAntiAliasing (enable : Bool) (c : Canvas F) : Canvas F :=
  { c with m_GdipGraphics :=
      { c.m_GdipGraphics with smoothingHighQuality := enable, pixelOffsetHighQuality := enable } }

/-- `Canvas::BeginTargetDraw`; `createTargetOk` is whether
`CreateWicBitmapRenderTarget` succeeds. -/
def BeginTargetDraw (createTargetOk : Bool) (c : Canvas F) : Bool × Canvas F :=
  if c.m_Target.isSome then (true, c)
  else if createTargetOk then
    let c1 := { c with m_Target := some ⟨Matrix3x2.Identity, false, false⟩ }
    let c2 := SetTextAntiAliasing c1.m_TextAntiAliasing c1
    let c3 := c2.emit .targetBeginDraw
    (true, UpdateTargetTransform c3)
  else (false, c)

/-- `Canvas::BeginGdiplusContext`; the returned reference is `m_GdipGraphics`. -/
def BeginGdiplusContext (c : Canvas F) : Canvas F := EndTargetDraw c

/-- `Canvas::EndGdiplusContext`. -/
def EndGdiplusContext (c : Canvas F) : Canvas F := c

/-- `Canvas::GetDC`. -/
def GetDC (c : Canvas F) : Canvas F := EndTargetDraw c

/-- Result of `Canvas::IsTransparentPixel`: the returned value and the index at
which `data[]` was read, if it was. -/
structure PixelQuery where
  result : Bool
  indexed : Option Int
deriving DecidableEq, Repr

/-- `Canvas::IsTransparentPixel`. -/
def IsTransparentPixel (x y : Int) (c : Canvas F) : PixelQuery :=
  if ¬ (x ≥ 0 ∧ y ≥ 0 ∧ x < c.m_W ∧ y < c.m_H) then ⟨false, none⟩
  else
    match c.m_Bitmap with
    | none => ⟨true, none⟩
    | some data =>
      let pixel := data.getD (y * c.m_W + x).toNat 0
      ⟨decide (pixel &&& 0xFF000000 ≠ 0), some (y * c.m_W + x)⟩

/-- `Canvas::SetTransform`. -/
def SetTransform (matrix : Matrix3x2 F) (c : Canvas F) : Canvas F :=
  let c1 := { c with m_GdipGraphics := { c.m_GdipGraphics with transform := matrix } }
  if c1.m_Target.isSome then UpdateTargetTransform c1 else c1

/-- `Canvas::ResetTransform`. -/
def ResetTransform (c : Canvas F) : Canvas F :=
  let c1 := { c with m_GdipGraphics := { c.m_GdipGraphics with transform := Matrix3x2.Identity } }
  if c1.m_Target.isSome then targetSetTransform Matrix3x2.Identity c1 else c1

/-- `Graphics::TranslateTransform` and `Graphics::RotateTransform` with the
default `MatrixOrderPrepend`. -/
def Graphics.prepend (m : Matrix3x2 F) (g : Graphics F) : Graphics F :=
  { g with transform := Matrix3x2.SetProduct m g.transform }

/-- `Canvas::RotateTransform`. -/
def RotateTransform (angle x y dx dy : F) (c : Canvas F) : Canvas F :=
  let g1 := Graphics.prepend (Matrix3x2.Translation x y) c.m_GdipGraphics
  let g2 := Graphics.prepend (Matrix3x2.Rotation angle) g1
  let g3 := Graphics.prepend (Matrix3x2.Translation dx dy) g2
  let c1 := { c with m_GdipGraphics := g3 }
  if c1.m_Target.isSome then UpdateTargetTransform c1 else c1

/-- The pixel buffer after a clear with `color`: every pixel holds the
premultiplied colour (for the render target, once the clear is flushed). -/
def clearedBitmap (color : Color) (c : Canvas F) : Option (List Nat) :=
  c.m_Bitmap.map (fun data => List.replicate data.length color.toPARGB)

/-- `Canvas::Clear`. -/
def Clear (color : Color) (c : Canvas F) : Canvas F :=
  if ¬ c.m_Target.isSome then
    { c.emit (.gdipClear color) with m_Bitmap := clearedBitmap color c }
  else
    { c.emit (.targetClear color) with m_Bitmap := clearedBitmap color c }

/-- `Canvas::DrawTextW`.  The helpers of `TextFormatD2D` that receive the render
target are recorded as calls; the draw position they compute is not part of
the canvas state. -/
def DrawTextW (format : TextFormat) (applyInlineFormatting : Bool) (ext : Ext)
    (c : Canvas F) : Canvas F :=
  match BeginTargetDraw ext.createTargetOk c with
  | (false, c1) => c1
  | (true, c1) =>
    let c2 := c1.emit .targetCreateSolidColorBrush
    if ¬ ext.createBrushOk then c2
    else if ¬ ext.createLayoutOk then c2
    else
      let c3 :=
        if format.m_Trimming then
          if c2.m_CanUseAxisAlignClip then c2.emit .targetPushAxisAlignedClip
          else c2.emit .targetPushLayer
        else c2
      let c4 :=
        if applyInlineFormatting then (c3.emit .applyInlineColoring).emit .applyInlineShadow
        else c3
      let c5 := c4.emit .targetDrawTextLayout
      if format.m_Trimming then
        if c5.m_CanUseAxisAlignClip then c5.emit .targetPopAxisAlignedClip
        else c5.emit .targetPopLayer
      else c5

/-- `Canvas::DrawBitmap`. -/
def DrawBitmap (dstRect srcRect : Rect) (ext : Ext) (c : Canvas F) : Canvas F :=
  let c1 :=
    if srcRect.Width ≠ dstRect.Width ∨ srcRect.Height ≠ dstRect.Height then EndTargetDraw c
    else c
  if ¬ c1.m_Target.isSome then
    c1.emit (.gdipDrawImage dstRect srcRect)
  else
    let c2 := c1.emit .lockBitsRead
    if ext.lockOk then
      let c3 := c2.emit .targetCreateSharedBitmap
      let c4 := if ext.sharedBitmapOk then c3.emit (.targetDrawBitmap dstRect srcRect) else c3
      c4.emit .unlockBits
    else c2

/-- `Canvas::DrawMaskedBitmap`. -/
def DrawMaskedBitmap (ext : Ext) (c : Canvas F) : Canvas F :=
  match BeginTargetDraw ext.createTargetOk c with
  | (false, c1) => c1
  | (true, c1) =>
    let c2 := c1.emit .lockBitsRead
    if ext.lockOk then
      let c3 := c2.emit .targetCreateSharedBitmap
      let c4 :=
        if ext.sharedBitmapOk then
          let c5 := c3.emit .targetCreateBitmapBrush
          if ext.bitmapBrushOk then
            let c6 := c5.emit .maskLockBitsRead
            if ext.maskLockOk then
              let c7 := c6.emit .targetCreateSharedBitmap
              let c8 :=
                if ext.maskSharedBitmapOk then
                  let c9 := targetSetAliased true c7
                  let c10 := c9.emit .targetFillOpacityMask
                  targetSetAliased false c10
                else c7
              c8.emit .maskUnlockBits
            else c6
          else c5
        else c3
      c4.emit .unlockBits
    else c2

/-- `Canvas::FillRectangle`. -/
def FillRectangle (rect : Rect) (ext : Ext) (c : Canvas F) : Canvas F :=
  if ¬ c.m_Target.isSome then
    c.emit (.gdipFillRectangle rect)
  else
    let c1 := c.emit .targetCreateSolidColorBrush
    if ext.createBrushOk then c1.emit (.targetFillRectangle rect) else c1

/-- The transform `DrawGeometry` installs while it draws:
`shape.GetShapeMatrix() * worldTransform * Translation(xPos, yPos)`. -/
def geometryTransform (shape : DrawnShape F) (worldTransform : Matrix3x2 F) (xPos yPos : Int) :
    Matrix3x2 F :=
  Matrix3x2.SetProduct (Matrix3x2.SetProduct shape.shapeMatrix worldTransform)
    (Matrix3x2.Translation (Real32.ofInt xPos) (Real32.ofInt yPos))

/-- `Canvas::DrawGeometry`. -/
def DrawGeometry (shape : DrawnShape F) (xPos yPos : Int) (ext : Ext) (c : Canvas F) : Canvas F :=
  match BeginTargetDraw ext.createTargetOk c with
  | (false, c1) => c1
  | (true, c1) =>
    match c1.m_Target with
    | none => c1
    | some t =>
      let worldTransform := t.transform
      let c2 := targetSetTransform (geometryTransform shape worldTransform xPos yPos) c1
      let c3 := c2.emit .targetCreateSolidColorBrush
      let c4 :=
        if ext.createBrushOk then
          let c5 := if Real32.isPos shape.fillAlpha then c3.emit .targetFillGeometry else c3
          if Real32.isPos shape.strokeAlpha && Real32.isPos shape.m_StrokeWidth then
            c5.emit .targetDrawGeometry
          else c5
        else c3
      targetSetTransform worldTransform c4

/-- The calls `DrawGeometry` issues after the session is ensured, each with the
transform `m` installed at the time. -/
def geometryEvents (shape : DrawnShape F) (brushOk : Bool) (m : Matrix3x2 F) : List (Event F) :=
  [⟨.targetCreateSolidColorBrush, true, some m⟩] ++
  (if brushOk then
    (if Real32.isPos shape.fillAlpha then [⟨.targetFillGeometry, true, some m⟩] else []) ++
    (if Real32.isPos shape.strokeAlpha && Real32.isPos shape.m_StrokeWidth then
      [⟨.targetDrawGeometry, true, some m⟩] else [])
   else [])

/-- The calls `DrawBitmap` issues on the shared-bitmap path, each issued with
`m_Target` non-null and the session transform `m`. -/
def sharedBitmapEvents (dstRect srcRect : Rect) (ext : Ext) (m : Matrix3x2 F) : List (Event F) :=
  [⟨.lockBitsRead, true, some m⟩] ++
  (if ext.lockOk then
    [⟨.targetCreateSharedBitmap, true, some m⟩] ++
    (if ext.sharedBitmapOk then [⟨.targetDrawBitmap dstRect srcRect, true, some m⟩] else []) ++
    [⟨.unlockBits, true, some m⟩]
   else [])

end Canvas

/-- One call of a public member function of `Gfx::Canvas`, with the outcomes of
the platform calls made during it. -/
inductive Op (F : Type) where
  | Resize (w h : Int) (allocOk : Bool)
  | BeginDraw
  | EndDraw
  | BeginGdiplusContext
  | EndGdiplusContext
  | GetDC
  | SetTransform (matrix : Matrix3x2 F)
  | ResetTransform
  | RotateTransform (angle x y dx dy : F)
  | SetAntiAliasing (enable : Bool)
  | SetTextAntiAliasing (enable : Bool)
  | Clear (color : Color)
  | DrawTextW (format : TextFormat) (applyInlineFormatting : Bool) (ext : Ext)
  | DrawBitmap (dstRect srcRect : Rect) (ext : Ext)
  | DrawMaskedBitmap (ext : Ext)
  | FillRectangle (rect : Rect) (ext : Ext)
  | DrawGeometry (shape : DrawnShape F) (xPos yPos : Int) (ext : Ext)

/-- The operation is a call of `Resize`. -/
def Op.isResize {F : Type} : Op F → Bool
  | .Resize _ _ _ => true
  | _ => false

namespace Canvas

variable {F : Type} [Real32 F]

/-- Execute one operation. -/
def step (c : Canvas F) : Op F → Canvas F
  | .Resize w h allocOk => Resize w h allocOk c
  | .BeginDraw => (BeginDraw c).2
  | .EndDraw => EndDraw c
  | .BeginGdiplusContext => BeginGdiplusContext c
  | .EndGdiplusContext => EndGdiplusContext c
  | .GetDC => GetDC c
  | .SetTransform matrix => SetTransform matrix c
  | .ResetTransform => ResetTransform c
  | .RotateTransform angle x y dx dy => RotateTransform angle x y dx dy c
  | .SetAntiAliasing enable => SetAntiAliasing enable c
  | .SetTextAntiAliasing enable => SetTextAntiAliasing enable c
  | .Clear color => Clear color c
  | .DrawTextW format applyInlineFormatting ext => DrawTextW format applyInlineFormatting ext c
  | .DrawBitmap dstRect srcRect ext => DrawBitmap dstRect srcRect ext c
  | .DrawMaskedBitmap ext => DrawMaskedBitmap ext c
  | .FillRectangle rect ext => FillRectangle rect ext c
  | .DrawGeometry shape xPos yPos ext => DrawGeometry shape xPos yPos ext c

/-- Execute a sequence of operations, first to last. -/
def run (ops : List (Op F)) (c : Canvas F) : Canvas F := ops.foldl step c

/-- Every GDI+ draw in the list was issued while `m_Target` was null. -/
def GdipDrawsIdle (events : List (Event F)) : Prop :=
  ∀ e ∈ events, e.call.isGdipDraw = true → e.targetLive = false

/-- The session, when live, carries the transform of `m_GdipGraphics`. -/
def Synced (c : Canvas F) : Prop :=
  ∀ t, c.m_Target = some t → t.transform = c.m_GdipGraphics.transform

end Canvas

/-- A small exact instance of `Real32` used to evaluate the model on concrete
inputs: integers, with the rotation entries of the multiples of 90 degrees. -/
instance : Real32 Int where
  zero := (0 : Int)
  one := (1 : Int)
  add := Int.add
  mul := Int.mul
  neg := Int.neg
  cosDeg := fun d => if d % 360 = 0 then 1 else if d % 360 = 180 then -1 else 0
  sinDeg := fun d => if d % 360 = 90 then 1 else if d % 360 = 270 then -1 else 0
  ofInt := fun n => n
  isZero := fun a => decide (a = 0)
  isPos := fun a => decide (0 < a)

/-- A canvas over the integer instance: the members right after `Resize(w, h)`
on a canvas that held nothing. -/
def Canvas.sized (w h : Int) : Canvas Int :=
  Canvas.Resize w h true
    ⟨0, 0, none, none, ⟨Matrix3x2.Identity, false, false⟩, false, false, false, []⟩

/-- Platform outcomes in which every fallible call succeeds. -/
def Ext.allOk : Ext := ⟨true, true, true, true, true, true, true, true⟩

end Gfx

/-!
## `MeterShape`

`Library/MeterShape.cpp`.  The configuration parser (`ConfigParser`), the
shape classes (`Gfx::Shape`, `Gfx::Rectangle`, `Gfx::RoundedRectangle`) and the
iteration order of `std::unordered_map` are parameters of the embedding.
Undefined behaviour of the C++ (reading `back()` of an empty vector, inserting
past the end, moving a pointer past the terminator of a string, casting a
`FLOAT` whose truncation is not an `int`) is an explicit `Fault`.
-/

/-- A wide string, as the list of its characters before the terminator. -/
abbrev WString := List Char

/-- The test `_wcsnicmp(s, pat, n) == 0`. -/
def wcsnicmpEq (s pat : WString) (n : Nat) : Bool :=
  (s.take n).map Char.toLower == (pat.take n).map Char.toLower

/-- The value of the leading decimal digits of `s`, continuing from `acc`. -/
def wtoiDigits : WString → Nat → Nat
  | [], acc => acc
  | ch :: rest, acc =>
    if ch.isDigit then wtoiDigits rest (acc * 10 + (ch.toNat - 48)) else acc

/-- `_wtoi`: leading white space, an optional sign, decimal digits; the result
saturates at the bounds of `int`. -/
def wtoi (s : WString) : Int :=
  let clamp := fun (n : Int) => max (-2147483648) (min 2147483647 n)
  match s.dropWhile Char.isWhitespace with
  | '-' :: rest => clamp (-(wtoiDigits rest 0 : Int))
  | '+' :: rest => clamp (wtoiDigits rest 0 : Int)
  | rest => clamp (wtoiDigits rest 0 : Int)

/-- The value an `int` holds after an arithmetic result `n` wrapped to 32 bits. -/
def wrapInt (n : Int) : Int := (n + 2147483648) % 4294967296 - 2147483648

/-- `std::to_wstring` on a `size_t`. -/
def to_wstring (n : Nat) : WString := (Nat.repr n).toList

/-- A `FLOAT`: a finite value as an exact fraction `num / den`, an infinity or
a NaN.  Every value of the 32-bit format is one of these. -/
inductive FLOAT where
  | finite (num : Int) (den : Nat) (den_pos : 0 < den)
  | infinity (negative : Bool)
  | nan
deriving DecidableEq, Repr

namespace FLOAT

/-- The `FLOAT` whose value is the integer `n`. -/
def integer (n : Int) : FLOAT := .finite n 1 Nat.one_pos

/-- The spacing of the 32-bit format at the magnitude `n`: the least of
`q`, `2 * q`, `4 * q`, ... under which `n` has at most 24 significant bits. -/
def quantum : Nat → Nat → Nat → Nat
  | 0, _, q => q
  | fuel + 1, n, q => if n / q < 16777216 then q else quantum fuel n (2 * q)

/-- The value of `(FLOAT)a` for an `int`: `a` rounded to 24 significant bits,
to the nearest, a tie to the even significand. -/
def round (a : Int) : Int :=
  let n := a.natAbs
  let q := quantum n n 1
  let k := n / q
  let r := n % q
  let significand := if q < 2 * r ∨ (2 * r = q ∧ k % 2 = 1) then k + 1 else k
  if a < 0 then -((significand * q : Nat) : Int) else ((significand * q : Nat) : Int)

/-- The conversion `(FLOAT)a` of an `int`, as the usual arithmetic conversions
apply it to the `int` operand of a comparison with a `FLOAT`. -/
def ofInt (a : Int) : FLOAT := integer (round a)

/-- The comparison `a < b` of two `FLOAT`s. -/
def lt : FLOAT → FLOAT → Bool
  | .finite n1 d1 _, .finite n2 d2 _ => decide (n1 * d2 < n2 * d1)
  | .finite _ _ _, .infinity negative => ! negative
  | .infinity negative, .finite _ _ _ => negative
  | .infinity negative1, .infinity negative2 => negative1 && ! negative2
  | _, _ => false

/-- The value of `r` truncated toward zero (zero for an infinity and a NaN). -/
def truncate : FLOAT → Int
  | .finite num den _ => Int.tdiv num den
  | _ => 0

/-- The cast `(int)r`: truncation toward zero; undefined (`none`) when the
truncated value is not a value of the 32-bit `int`. -/
def toInt : FLOAT → Option Int
  | .finite num den _ =>
    let t := Int.tdiv num den
    if -2147483648 ≤ t ∧ t ≤ 2147483647 then some t else none
  | _ => none

/-- Whether `r` is finite and its truncation has a magnitude below `2^24`. -/
def exact24 : FLOAT → Bool
  | .finite num den _ =>
    decide (-16777216 < Int.tdiv num den ∧ Int.tdiv num den < 16777216)
  | _ => false

end FLOAT

/-- `D2D1_RECT_F`. -/
structure D2D1_RECT_F where
  left : FLOAT
  top : FLOAT
  right : FLOAT
  bottom : FLOAT
deriving DecidableEq, Repr

/-- `D2D1_COMBINE_MODE`. -/
inductive D2D1_COMBINE_MODE where
  | UNION
  | INTERSECT
  | XOR
  | EXCLUDE
deriving DecidableEq, Repr

namespace Gfx

/-- The path held in `Shape::m_Shape`: a primitive, or the result of combining
a path with another one or with the empty path. -/
inductive Geometry where
  | Rectangle (x y w h : Int)
  | RoundedRectangle (x y w h xRadius yRadius : Int)
  | Empty
  | Combined (base : Geometry) (other : Geometry) (mode : D2D1_COMBINE_MODE)
deriving DecidableEq, Repr

/-- Modelled from the spec: `Gfx::Shape` (declared in `Common/Gfx/Shape.h`,
which is not part of the sources).  A ShapeGeometry holds its geometry, the
local transform (rotation and offset), fill colour, stroke colour, stroke width
and the combined flag; the setters used by `MeterShape` store their arguments. -/
structure Shape where
  m_Shape : Geometry
  m_FillColor : Color
  m_StrokeColor : Color
  m_StrokeWidth : Int
  m_OffsetX : Int
  m_OffsetY : Int
  m_Rotation : Int
  m_RotationAnchorX : Int
  m_RotationAnchorY : Int
  m_RotationAnchorDefined : Bool
  m_IsCombined : Bool
deriving DecidableEq, Repr

namespace Shape

/-- `Shape::SetFillColor`. -/
def SetFillColor (color : Color) (s : Shape) : Shape := { s with m_FillColor := color }

/-- `Shape::SetStrokeColor`. -/
def SetStrokeColor (color : Color) (s : Shape) : Shape := { s with m_StrokeColor := color }

/-- `Shape::SetStrokeWidth`. -/
def SetStrokeWidth (width : Int) (s : Shape) : Shape := { s with m_StrokeWidth := width }

/-- `Shape::SetOffset`. -/
def SetOffset (x y : Int) (s : Shape) : Shape := { s with m_OffsetX := x, m_OffsetY := y }

/-- `Shape::SetRotation`. -/
def SetRotation (rotation anchorX anchorY : Int) (anchorDefined : Bool) (s : Shape) : Shape :=
  { s with
    m_Rotation := rotation
    m_RotationAnchorX := anchorX
    m_RotationAnchorY := anchorY
    m_RotationAnchorDefined := anchorDefined }

/-- `Shape::SetCombined`. -/
def SetCombined (s : Shape) : Shape := { s with m_IsCombined := true }

/-- `Shape::IsCombined`. -/
def IsCombined (s : Shape) : Bool := s.m_IsCombined

end Shape

end Gfx

/-- The parser handed to `MeterShape` and the static helpers of `ConfigParser`
that `MeterShape.cpp` calls.  `ReadString key` is
`parser.ReadString(section, key, L"")`. -/
structure ConfigParser where
  ReadString : WString → WString
  Tokenize : WString → WString → List WString
  Tokenize2 : WString → Char → List WString
  ParseInt : WString → Int → Int
  ParseColor : WString → Gfx.Color

/-- The shape classes and the standard library, as far as `MeterShape.cpp`
depends on them: the constructors of the primitives, the virtual members of
`Gfx::Shape`, and the order in which a range-for visits an
`std::unordered_map`. -/
structure Platform where
  newRectangle : Int → Int → Int → Int → Gfx.Shape
  newRoundedRectangle : Int → Int → Int → Int → Int → Int → Gfx.Shape
  DoesShapeExist : Gfx.Shape → Bool
  Clone : Gfx.Shape → Option Gfx.Shape
  CombineWith : Gfx.Shape → Option Gfx.Shape → D2D1_COMBINE_MODE → Bool × Gfx.Shape
  GetBounds : Gfx.Shape → D2D1_RECT_F
  mapOrder : List (Nat × WString) → List (Nat × WString)

/-- A line written through `LogErrorF` or `LogWarningF`: the format string and
its string arguments. -/
inductive LogEntry where
  | Error (format : String) (args : List WString)
  | Warning (format : String) (args : List WString)
deriving DecidableEq, Repr

/-- Undefined behaviour, and exhaustion of the fuel of the embedding. -/
inductive Fault where
  | backOfEmptyVector
  | insertPastEnd
  | indexOutOfRange
  | pastTerminator
  | floatOutOfIntRange
  | outOfFuel
deriving DecidableEq, Repr

deriving instance DecidableEq for Except

/-- The members of `MeterShape` (with those of `Meter` that it writes) and the log. -/
structure MeterShape where
  m_Shapes : List Gfx.Shape
  m_W : Int
  m_H : Int
  m_WDefined : Bool
  m_HDefined : Bool
  log : List LogEntry
deriving DecidableEq, Repr

namespace MeterShape

/-- `LogErrorF(this, format, args...)`. -/
def LogErrorF (format : String) (args : List WString) (m : MeterShape) : MeterShape :=
  { m with log := m.log ++ [LogEntry.Error format args] }

/-- `LogWarningF(this, format, args...)`. -/
def LogWarningF (format : String) (args : List WString) (m : MeterShape) : MeterShape :=
  { m with log := m.log ++ [LogEntry.Warning format args] }

/-- Pointer arithmetic `p += n` on a terminated string. -/
def advance (p : WString) (n : Nat) : Except Fault WString :=
  if n ≤ p.length then .ok (p.drop n) else .error .pastTerminator

/-- `MeterShape::Dispose`. -/
def Dispose (m : MeterShape) : MeterShape := { m with m_Shapes := [] }

/-- Apply `f` to the element `m_Shapes[i]` (the callers hold `i < size`). -/
def modifyShape (i : Nat) (f : Gfx.Shape → Gfx.Shape) (m : MeterShape) : MeterShape :=
  match m.m_Shapes.get? i with
  | some s => { m with m_Shapes := m.m_Shapes.set i (f s) }
  | none => m

/-- Apply `f` to `m_Shapes.back()` (the callers hold a non-empty vector). -/
def modifyBack (f : Gfx.Shape → Gfx.Shape) (m : MeterShape) : MeterShape :=
  modifyShape (m.m_Shapes.length - 1) f m

/-- The lambda `createShape` of `MeterShape::CreateShape`. -/
def createShapeLambda (platform : Platform) (keyId : Nat) (shape : Gfx.Shape) (m : MeterShape) :
    Bool × MeterShape :=
  let id := if keyId = 0 then [] else to_wstring keyId
  let shapeExists := platform.DoesShapeExist shape
  if shapeExists then (true, { m with m_Shapes := m.m_Shapes ++ [shape] })
  else (false, LogErrorF "Could not create shape: Shape%s" [id] m)

/-- `MeterShape::CreateShape`.  The result is the returned value, the value left
in `isCombined` (false on entry) and the state. -/
def CreateShape (parser : ConfigParser) (platform : Platform) (args : List WString) (keyId : Nat)
    (m : MeterShape) : Except Fault (Bool × Bool × MeterShape) :=
  match args with
  | [] => .error .indexOutOfRange
  | shapeName :: _ =>
    if wcsnicmpEq shapeName "RECTANGLE".toList 9 then
      let shapeName := shapeName.drop 9
      let tokens := parser.Tokenize2 shapeName ','
      let tokSize := tokens.length
      if tokSize = 4 then
        let x := parser.ParseInt (tokens.getD 0 []) 0
        let y := parser.ParseInt (tokens.getD 1 []) 0
        let w := parser.ParseInt (tokens.getD 2 []) 0
        let h := parser.ParseInt (tokens.getD 3 []) 0
        let r := createShapeLambda platform keyId (platform.newRectangle x y w h) m
        .ok (r.1, false, r.2)
      else if tokSize > 4 then
        let x := parser.ParseInt (tokens.getD 0 []) 0
        let y := parser.ParseInt (tokens.getD 1 []) 0
        let w := parser.ParseInt (tokens.getD 2 []) 0
        let h := parser.ParseInt (tokens.getD 3 []) 0
        let xRadius := parser.ParseInt (tokens.getD 4 []) 0
        let yRadius := if tokSize > 5 then parser.ParseInt (tokens.getD 5 []) 0 else xRadius
        let r := createShapeLambda platform keyId
          (platform.newRoundedRectangle x y w h xRadius yRadius) m
        .ok (r.1, false, r.2)
      else
        .ok (false, false, LogErrorF "Rectangle has too few parameters" [] m)
    else if wcsnicmpEq shapeName "COMBINE".toList 7 then
      .ok (true, true, m)
    else
      .ok (false, false, LogErrorF "Invalid shape: %s" [shapeName] m)

/-- The lambda `showError` of `MeterShape::CreateCombinedShape`. -/
def showError (shapeId : Nat) (description : String) (error : WString) (m : MeterShape) :
    MeterShape :=
  let key := "Shape".toList ++ to_wstring (shapeId + 1)
  LogErrorF "%s %s \"%s\"" [key, description.toList, error] m

/-- The lambda `getShapeId` of `MeterShape::CreateCombinedShape`; the
subtraction is made in `int` and wraps below its least value. -/
def getShapeId (shape : WString) : Nat :=
  let id := wrapInt (wtoi shape - 1)
  if id < 0 then 0 else id.toNat

/-- The operator test at the head of the operand loop: the number of
characters skipped and the combine mode, or `none` for an invalid operator. -/
def combineMode (combined : WString) : Option (Nat × D2D1_COMBINE_MODE) :=
  if wcsnicmpEq combined "UNION".toList 5 then some (6, .UNION)
  else if wcsnicmpEq combined "XOR".toList 3 then some (4, .XOR)
  else if wcsnicmpEq combined "INTERSECT".toList 9 then some (10, .INTERSECT)
  else if wcsnicmpEq combined "EXCLUDE".toList 7 then some (8, .EXCLUDE)
  else none

/-- `m_Shapes.insert(m_Shapes.begin() + i, shape)` for `i <= size`. -/
def insertShape (i : Nat) (shape : Gfx.Shape) (m : MeterShape) : MeterShape :=
  { m with m_Shapes := m.m_Shapes.take i ++ shape :: m.m_Shapes.drop i }

/-- The loop `for (const auto& option : args)` of
`MeterShape::CreateCombinedShape`, with its early returns. -/
def combineOperands (platform : Platform) (shapeId : Nat) :
    List WString → MeterShape → Except Fault (Bool × MeterShape)
  | [], m => .ok (true, m)
  | option :: rest, m =>
    match combineMode option with
    | none =>
      .ok (false, showError shapeId "definition contains invalid combine: " option m)
    | some (skip, mode) =>
      match advance option skip with
      | .error e => .error e
      | .ok shapeRef =>
        match advance shapeRef 5 with
        | .error e => .error e
        | .ok combined =>
          let id := getShapeId combined
          if id = shapeId then
            .ok (false, showError shapeId "cannot combine with:" shapeRef m)
          else if id < m.m_Shapes.length then
            let m1 := modifyShape id Gfx.Shape.SetCombined m
            match m1.m_Shapes.get? shapeId, m1.m_Shapes.get? id with
            | some self, some other =>
              let r := platform.CombineWith self (some other) mode
              let m2 := { m1 with m_Shapes := m1.m_Shapes.set shapeId r.2 }
              if ¬ r.1 then
                .ok (false, showError shapeId "could not combine with: " shapeRef m2)
              else combineOperands platform shapeId rest m2
            | _, _ => .error .indexOutOfRange
          else
            .ok (false,
              showError shapeId "defintion contains invalid shape identifier: " shapeRef m)

/-- `MeterShape::CreateCombinedShape`. -/
def CreateCombinedShape (platform : Platform) (shapeId : Nat) (args : List WString)
    (m : MeterShape) : Except Fault (Bool × MeterShape) :=
  match args with
  | [] => .error .indexOutOfRange
  | first :: rest =>
    match advance first 8 with
    | .error e => .error e
    | .ok parentName =>
      if wcsnicmpEq parentName "SHAPE".toList 5 then
        let parentId := getShapeId (parentName.drop 5)
        if parentId = shapeId then
          .ok (false, showError shapeId "cannot combine with:" parentName m)
        else if parentId < m.m_Shapes.length then
          match m.m_Shapes.get? parentId with
          | none => .error .indexOutOfRange
          | some parent =>
            match platform.Clone parent with
            | some clonedShape =>
              if shapeId ≤ m.m_Shapes.length then
                let m1 := insertShape shapeId clonedShape m
                let m2 := modifyShape parentId Gfx.Shape.SetCombined m1
                let m3 := modifyShape shapeId
                  (fun s => (platform.CombineWith s none .UNION).2) m2
                combineOperands platform shapeId rest m3
              else .error .insertPastEnd
            | none => .ok (false, m)
        else
          .ok (false,
            showError shapeId "definition contains invalid shape reference: " parentName m)
      else
        .ok (false,
          showError shapeId "defintion contains invalid shape identifier: " parentName m)

/-- The body of the loop `for (const auto& option : args)` of
`MeterShape::ParseModifiers`; `self` is the recursive call
`ParseModifiers(newArgs, parser, section, true)`. -/
def parseModifier (parser : ConfigParser)
    (self : List WString → MeterShape → Except Fault MeterShape) (recursive : Bool)
    (m : MeterShape) (option : WString) : Except Fault MeterShape :=
  if wcsnicmpEq option "FILLCOLOR".toList 9 then
    let color := parser.ParseColor (option.drop 9)
    .ok (modifyBack (Gfx.Shape.SetFillColor color) m)
  else if wcsnicmpEq option "STROKECOLOR".toList 11 then
    let color := parser.ParseColor (option.drop 11)
    .ok (modifyBack (Gfx.Shape.SetStrokeColor color) m)
  else if wcsnicmpEq option "STROKEWIDTH".toList 11 then
    let width := parser.ParseInt (option.drop 11) 0
    if width < 0 then
      .ok (modifyBack (Gfx.Shape.SetStrokeWidth 0)
        (LogWarningF "StrokeWidth must not be negative" [] m))
    else .ok (modifyBack (Gfx.Shape.SetStrokeWidth width) m)
  else if wcsnicmpEq option "OFFSET".toList 6 then
    let offset := parser.Tokenize2 (option.drop 6) ','
    if offset.length ≥ 2 then
      let x := parser.ParseInt (offset.getD 0 []) 0
      let y := parser.ParseInt (offset.getD 1 []) 0
      .ok (modifyBack (Gfx.Shape.SetOffset x y) m)
    else .ok (LogErrorF "Offset has too few parameters" [] m)
  else if wcsnicmpEq option "ROTATE".toList 6 then
    let rotate := parser.Tokenize2 (option.drop 6) ','
    let size := rotate.length
    if size > 0 then
      let rotation := parser.ParseInt (rotate.getD 0 []) 0
      if size > 2 then
        let anchorX := parser.ParseInt (rotate.getD 1 []) 0
        let anchorY := parser.ParseInt (rotate.getD 2 []) 0
        .ok (modifyBack (Gfx.Shape.SetRotation rotation anchorX anchorY true) m)
      else .ok (modifyBack (Gfx.Shape.SetRotation rotation 0 0 false) m)
    else .ok (LogWarningF "Rotate has too few parameters" [] m)
  else if wcsnicmpEq option "EXTEND".toList 6 then
    if ¬ recursive then
      let extendParameters := parser.Tokenize (option.drop 6) ",".toList
      extendParameters.foldlM (fun (m : MeterShape) (extend : WString) =>
        let key := parser.ReadString extend
        if key ≠ [] then self (parser.Tokenize key "|".toList) m
        else .ok m) m
    else .ok (LogErrorF "Extend cannot be used recursively" [] m)
  else .ok (LogErrorF "Invalid shape modifier: %s" [option] m)

/-- `MeterShape::ParseModifiers`.  The first argument bounds the nesting of the
calls; `recursive` is the parameter of that name. -/
def ParseModifiers (parser : ConfigParser) :
    Nat → List WString → Bool → MeterShape → Except Fault MeterShape
  | 0, _, _, _ => .error .outOfFuel
  | depth + 1, args, recursive, m =>
    if m.m_Shapes = [] then .error .backOfEmptyVector
    else
      args.foldlM
        (parseModifier parser (fun newArgs m => ParseModifiers parser depth newArgs true m)
          recursive) m

/-- One statement of the bounds update, `if (!defined && current < bound)
current = (int)bound;`: the value of `current` after it.  The comparison
converts `current` to `FLOAT`. -/
def updateExtent (defined : Bool) (current : Int) (bound : FLOAT) : Except Fault Int :=
  if ¬ defined ∧ FLOAT.lt (FLOAT.ofInt current) bound then
    match bound.toInt with
    | some value => .ok value
    | none => .error .floatOutOfIntRange
  else .ok current

/-- The bounds update of `MeterShape::ReadOptions` after each accepted
declaration. -/
def updateBounds (platform : Platform) (m : MeterShape) : Except Fault MeterShape :=
  match m.m_Shapes.getLast? with
  | none => .error .backOfEmptyVector
  | some back =>
    let bounds := platform.GetBounds back
    match updateExtent m.m_WDefined m.m_W bounds.right with
    | .error e => .error e
    | .ok w =>
      let m1 := { m with m_W := w }
      match updateExtent m1.m_HDefined m1.m_H bounds.bottom with
      | .error e => .error e
      | .ok h => .ok { m1 with m_H := h }

/-- The key `L"Shape" + std::to_wstring(i)` read for a declaration after the first. -/
def shapeKey (i : Nat) : WString := "Shape".toList ++ to_wstring i

/-- The loop `while (!shape.empty())` of `MeterShape::ReadOptions`, entered with
the counter `i`, the declaration `shape` and the map `combinedShapes`. -/
def shapeLoop (parser : ConfigParser) (platform : Platform) :
    Nat → Nat → WString → MeterShape → List (Nat × WString) →
      Except Fault (MeterShape × List (Nat × WString))
  | 0, _, _, _, _ => .error .outOfFuel
  | fuel + 1, i, shape, m, combinedShapes =>
    if shape = [] then .ok (m, combinedShapes)
    else
      let args := parser.Tokenize shape "|".toList
      match CreateShape parser platform args (i - 1) m with
      | .error e => .error e
      | .ok (false, _, m1) => .ok (m1, combinedShapes)
      | .ok (true, isCombined, m1) =>
        let next : Except Fault (MeterShape × List (Nat × WString)) :=
          if isCombined then .ok (m1, combinedShapes ++ [(i - 1, shape)])
          else
            match ParseModifiers parser 2 args.tail false m1 with
            | .error e => .error e
            | .ok m2 => .ok (m2, combinedShapes)
        match next with
        | .error e => .error e
        | .ok (m2, combinedShapes2) =>
          match updateBounds platform m2 with
          | .error e => .error e
          | .ok m3 =>
            shapeLoop parser platform fuel (i + 1) (parser.ReadString (shapeKey (i + 1))) m3
              combinedShapes2

/-- The loop `for (const auto& shape : combinedShapes)` of
`MeterShape::ReadOptions` over the entries in the order they are visited. -/
def combineLoop (parser : ConfigParser) (platform : Platform) :
    List (Nat × WString) → MeterShape → Except Fault MeterShape
  | [], m => .ok m
  | shape :: rest, m =>
    let args := parser.Tokenize shape.2 "|".toList
    match CreateCombinedShape platform shape.1 args m with
    | .error e => .error e
    | .ok (false, m1) => .ok m1
    | .ok (true, m1) => combineLoop parser platform rest m1

/-- `MeterShape::ReadOptions`, from the state left by `Meter::ReadOptions`.
`fuel` bounds the number of declarations read. -/
def ReadOptions (parser : ConfigParser) (platform : Platform) (fuel : Nat) (m : MeterShape) :
    Except Fault MeterShape :=
  match shapeLoop parser platform fuel 1 (parser.ReadString "Shape".toList) (Dispose m) [] with
  | .error e => .error e
  | .ok (m1, combinedShapes) => combineLoop parser platform (platform.mapOrder combinedShapes) m1

/-- The running maximum of `values` starting from `start`. -/
def runningMax (start : Int) (values : List Int) : Int := values.foldl max start

/-- The truncated right bound `(int)GetBounds().right` of a shape. -/
def rightOf (platform : Platform) (s : Gfx.Shape) : Int :=
  (platform.GetBounds s).right.truncate

/-- The truncated bottom bound `(int)GetBounds().bottom` of a shape. -/
def bottomOf (platform : Platform) (s : Gfx.Shape) : Int :=
  (platform.GetBounds s).bottom.truncate

/-- The shapes of the list that are not combined. -/
def standalone (shapes : List Gfx.Shape) : List Gfx.Shape :=
  shapes.filter (fun s => ! s.IsCombined)

/-- No shape of the list has a negative stroke width. -/
def StrokeNonNegative (m : MeterShape) : Prop :=
  ∀ s ∈ m.m_Shapes, 0 ≤ s.m_StrokeWidth

/-- The members other than the last shape and the log agree. -/
def SameButLast (m n : MeterShape) : Prop :=
  n.m_W = m.m_W ∧ n.m_H = m.m_H ∧ n.m_WDefined = m.m_WDefined ∧ n.m_HDefined = m.m_HDefined ∧
  n.m_Shapes.length = m.m_Shapes.length ∧ n.m_Shapes.dropLast = m.m_Shapes.dropLast

/-- An `int` that the conversion to `FLOAT` leaves as it is: magnitude below `2^24`. -/
def Exact24 (a : Int) : Prop := -16777216 < a ∧ a < 16777216

instance (a : Int) : Decidable (Exact24 a) := inferInstanceAs (Decidable (_ ∧ _))

/-- Neither dimension is defined explicitly and, in each dimension, when the
start value and the truncated bounds of the shapes in the list have a
magnitude below `2^24`, the size member holds the running maximum of those
bounds from the start value. -/
def SizeTracksShapes (platform : Platform) (w0 h0 : Int) (m : MeterShape) : Prop :=
  m.m_WDefined = false ∧ m.m_HDefined = false ∧
  (Exact24 w0 → (∀ s ∈ m.m_Shapes, (platform.GetBounds s).right.exact24 = true) →
    m.m_W = runningMax w0 (m.m_Shapes.map (rightOf platform))) ∧
  (Exact24 h0 → (∀ s ∈ m.m_Shapes, (platform.GetBounds s).bottom.exact24 = true) →
    m.m_H = runningMax h0 (m.m_Shapes.map (bottomOf platform)))

/-- The arguments `(x, y, w, h)` of a rectangle. -/
structure RectangleArgs where
  x : Int
  y : Int
  w : Int
  h : Int
deriving DecidableEq, Repr

/-- The rectangle has a positive width and height, and its arguments and its
right and bottom edges have a magnitude below `2^24`. -/
def RectangleArgs.Plain (r : RectangleArgs) : Prop :=
  0 < r.w ∧ 0 < r.h ∧ Exact24 r.x ∧ Exact24 r.y ∧ Exact24 r.w ∧ Exact24 r.h ∧
  Exact24 (r.x + r.w) ∧ Exact24 (r.y + r.h)

instance (r : RectangleArgs) : Decidable r.Plain := inferInstanceAs (Decidable (_ ∧ _))

/-- Modelled from the spec: the bounds that `Gfx::Shape::GetBounds` (defined in
`Common/Gfx/Shape.cpp`, which is not part of the sources) reports for a plain
rectangle `(x, y, w, h)` with `w, h > 0`: the right edge is `x + w` and the
bottom edge is `y + h`. -/
def rectangleBounds (r : RectangleArgs) : D2D1_RECT_F :=
  ⟨FLOAT.integer r.x, FLOAT.integer r.y, FLOAT.integer (r.x + r.w), FLOAT.integer (r.y + r.h)⟩

/-- Modelled from the spec: the shape classes build every plain rectangle and
report `rectangleBounds` for it (`Gfx::Rectangle` and `Gfx::Shape` are not part
of the sources). -/
def BuildsPlainRectangles (platform : Platform) : Prop :=
  ∀ r : RectangleArgs, r.Plain →
    platform.DoesShapeExist (platform.newRectangle r.x r.y r.w r.h) = true ∧
    platform.GetBounds (platform.newRectangle r.x r.y r.w r.h) = rectangleBounds r

/-- The rectangle that a declaration without modifiers declares: the single
token `Rectangle x,y,w,h`. -/
def plainRectangle (parser : ConfigParser) (shape : WString) : Option RectangleArgs :=
  match parser.Tokenize shape "|".toList with
  | [shapeName] =>
    if wcsnicmpEq shapeName "RECTANGLE".toList 9 then
      match parser.Tokenize2 (shapeName.drop 9) ',' with
      | [x, y, w, h] =>
        some ⟨parser.ParseInt x 0, parser.ParseInt y 0, parser.ParseInt w 0, parser.ParseInt h 0⟩
      | _ => none
    else none
  | _ => none

/-- Whether the declarations read from `shape` on, the counter being `i`, are
the plain rectangles `rects` and nothing else: each key holds one such
declaration and the key after the last is empty. -/
def declaresPlain (parser : ConfigParser) : Nat → WString → List RectangleArgs → Bool
  | _, shape, [] => shape.isEmpty
  | i, shape, r :: rest =>
    ! shape.isEmpty && plainRectangle parser shape == some r &&
      declaresPlain parser (i + 1) (parser.ReadString (shapeKey (i + 1))) rest

end MeterShape

/-! ### A concrete parser and platform

Used to evaluate the embedding on concrete configurations. -/

namespace Sample

/-- Remove leading and trailing white space. -/
def trim (s : WString) : WString :=
  ((s.dropWhile Char.isWhitespace).reverse.dropWhile Char.isWhitespace).reverse

/-- Split `s` at every character of `delimiters`; `current` holds the
characters of the piece being read, last first. -/
def splitAt (delimiters : WString) : WString → WString → List WString
  | [], current => [current.reverse]
  | ch :: rest, current =>
    if delimiters.contains ch then current.reverse :: splitAt delimiters rest []
    else splitAt delimiters rest (ch :: current)

/-- Tokens of `s` between the delimiters, trimmed, the empty ones dropped. -/
def Tokenize (s delimiters : WString) : List WString :=
  ((splitAt delimiters s []).map trim).filter (fun t => t ≠ [])

/-- A decimal integer with an optional sign, or `defValue` for the empty string. -/
def ParseInt (s : WString) (defValue : Int) : Int :=
  if trim s = [] then defValue else wtoi s

/-- A configuration as the list of its keys and values. -/
def lookup (config : List (String × String)) (key : WString) : WString :=
  match config.find? (fun kv => kv.1.toList == key) with
  | some kv => kv.2.toList
  | none => []

/-- The parser over a configuration given as keys and values. -/
def parser (config : List (String × String)) : ConfigParser where
  ReadString := lookup config
  Tokenize := Tokenize
  Tokenize2 := fun s ch => Tokenize s [ch]
  ParseInt := ParseInt
  ParseColor := fun _ => ⟨255, 255, 255, 255⟩

/-- The left, top, right and bottom of the box around a path, if it is not empty. -/
def box : Gfx.Geometry → Option (Int × Int × Int × Int)
  | .Rectangle x y w h => some (x, y, x + w, y + h)
  | .RoundedRectangle x y w h _ _ => some (x, y, x + w, y + h)
  | .Empty => none
  | .Combined base other mode =>
    match box base, box other with
    | none, none => none
    | some b, none => some b
    | none, some o =>
      match mode with
      | .UNION => some o
      | .XOR => some o
      | _ => none
    | some (l1, t1, r1, b1), some (l2, t2, r2, b2) =>
      match mode with
      | .UNION => some (min l1 l2, min t1 t2, max r1 r2, max b1 b2)
      | .XOR => some (min l1 l2, min t1 t2, max r1 r2, max b1 b2)
      | .EXCLUDE => some (l1, t1, r1, b1)
      | .INTERSECT =>
        if max l1 l2 < min r1 r2 ∧ max t1 t2 < min b1 b2 then
          some (max l1 l2, max t1 t2, min r1 r2, min b1 b2)
        else none

/-- Bounds of a shape: the box around its path widened by half the stroke width. -/
def GetBounds (s : Gfx.Shape) : D2D1_RECT_F :=
  match box s.m_Shape with
  | none => ⟨FLOAT.integer 0, FLOAT.integer 0, FLOAT.integer 0, FLOAT.integer 0⟩
  | some (l, t, r, b) =>
    ⟨.finite (2 * l - s.m_StrokeWidth) 2 (by decide),
     .finite (2 * t - s.m_StrokeWidth) 2 (by decide),
     .finite (2 * r + s.m_StrokeWidth) 2 (by decide),
     .finite (2 * b + s.m_StrokeWidth) 2 (by decide)⟩

/-- A shape with the given path: white fill, black stroke of width one. -/
def newShape (g : Gfx.Geometry) : Gfx.Shape :=
  ⟨g, ⟨255, 255, 255, 255⟩, ⟨255, 0, 0, 0⟩, 1, 0, 0, 0, 0, 0, false, false⟩

/-- A platform on which every shape can be created, cloned and combined; the
map is visited in the order given by `mapOrder`. -/
def platform (mapOrder : List (Nat × WString) → List (Nat × WString)) : Platform where
  newRectangle := fun x y w h => newShape (.Rectangle x y w h)
  newRoundedRectangle := fun x y w h xr yr => newShape (.RoundedRectangle x y w h xr yr)
  DoesShapeExist := fun _ => true
  Clone := fun s => some { s with m_IsCombined := false }
  CombineWith := fun s other mode =>
    let operand : Gfx.Geometry :=
      match other with
      | some o => o.m_Shape
      | none => .Empty
    (true, { s with m_Shape := .Combined s.m_Shape operand mode })
  GetBounds := GetBounds
  mapOrder := mapOrder

/-- Bounds of a shape without the stroke: the box around its path. -/
def pathBounds (s : Gfx.Shape) : D2D1_RECT_F :=
  match box s.m_Shape with
  | none => ⟨FLOAT.integer 0, FLOAT.integer 0, FLOAT.integer 0, FLOAT.integer 0⟩
  | some (l, t, r, b) => ⟨FLOAT.integer l, FLOAT.integer t, FLOAT.integer r, FLOAT.integer b⟩

/-- The platform `platform id` with the bounds of the path alone. -/
def pathPlatform : Platform := { platform id with GetBounds := pathBounds }

/-- A meter with no shapes, no size and an empty log. -/
def emptyMeter : MeterShape := ⟨[], 0, 0, false, false, []⟩

/-- The square of side `n` at the origin, as built by `newRectangle`. -/
def square (n : Int) : Gfx.Shape := newShape (.Rectangle 0 0 n n)

/-- The paths and combined flags of the shapes of a result. -/
def graph (r : Except Fault MeterShape) : Except Fault (List (Gfx.Geometry × Bool)) :=
  r.map (fun m => m.m_Shapes.map (fun (s : Gfx.Shape) => (s.m_Shape, s.m_IsCombined)))

/-- Whether `CreateCombinedShape` would accept the directive `shapeId` in the
state that `r` ended in. -/
def acceptsAfter (r : Except Fault MeterShape) (shapeId : Nat) (args : List WString) :
    Except Fault Bool :=
  match r with
  | .error e => .error e
  | .ok m => (MeterShape.CreateCombinedShape (platform id) shapeId args m).map (fun x => x.1)

/-- A configuration with two combine directives, each naming `Shape4` as operand. -/
def twoDirectives : List (String × String) :=
  [("Shape", "Rectangle 0,0,10,10"), ("Shape2", "Combine Shape | Union Shape4"),
   ("Shape3", "Combine Shape | Union Shape4"), ("Shape4", "Rectangle 0,0,50,50")]

/-- A configuration whose combine directive intersects a small square with a
large one. -/
def intersected : List (String × String) :=
  [("Shape", "Rectangle 0,0,10,10"), ("Shape2", "Rectangle 0,0,50,50"),
   ("Shape3", "Combine Shape | Intersect Shape2")]

/-- Two plain rectangles and no combine directive. -/
def plainRectangles : List (String × String) :=
  [("Shape", "Rectangle 5,5,10,20"), ("Shape2", "Rectangle 0,0,30,10")]

/-- One rectangle whose right edge is 16777220. -/
def wideRectangle : List (String × String) :=
  [("Shape", "Rectangle 0,0,16777220,10")]

/-- A meter with no shapes and no explicit size whose width on entry is 16777219. -/
def wideMeter : MeterShape := ⟨[], 16777219, 0, false, false, []⟩

/-- The meter after the first pass over `twoDirectives` and over `intersected`:
the two squares, sized 50 by 50. -/
def twoSquares : MeterShape := ⟨[square 10, square 50], 50, 50, false, false, []⟩

/-- The state a call of `CreateCombinedShape` ended in. -/
def stateOf (r : Except Fault (Bool × MeterShape)) : MeterShape :=
  match r with
  | .ok x => x.2
  | .error _ => emptyMeter

/-- The meter a call of `ReadOptions` ended in. -/
def finalState (r : Except Fault MeterShape) : MeterShape :=
  match r with
  | .ok m => m
  | .error _ => emptyMeter

/-- A configuration whose first declaration is a combine directive. -/
def combineFirst : List (String × String) :=
  [("Shape", "Combine Shape2"), ("Shape2", "Rectangle 0,0,50,50")]

/-- One square followed by two combine directives that clone it. -/
def twoClones : List (String × String) :=
  [("Shape", "Rectangle 0,0,10,10"), ("Shape2", "Combine Shape"), ("Shape3", "Combine Shape")]

/-- A square whose modifiers extend the key `Style`, which sets a negative
stroke width and extends itself. -/
def selfExtending : List (String × String) :=
  [("Shape", "Rectangle 0,0,50,50 | Extend Style"), ("Style", "StrokeWidth -5 | Extend Style")]

/-- A configuration whose combine directive names a parent declared after it. -/
def parentAfter : List (String × String) :=
  [("Shape", "Rectangle 0,0,1,1"), ("Shape2", "Combine Shape3"),
   ("Shape3", "Rectangle 0,0,2,2"), ("Shape4", "Rectangle 0,0,3,3")]

end Sample

namespace Gfx.Canvas
variable {F : Type}

theorem GdipDrawsIdle_append (l : List (Event F)) (e : Event F) :
    GdipDrawsIdle (l ++ [e]) ↔ GdipDrawsIdle l ∧ (e.call.isGdipDraw = true → e.targetLive = false) := by
  unfold GdipDrawsIdle
  constructor
  · intro h
    exact ⟨fun x hx => h x (List.mem_append_left _ hx), h e (by simp)⟩
  · rintro ⟨h1, h2⟩ x hx
    rcases List.mem_append.1 hx with hx | hx
    · exact h1 x hx
    · rw [List.mem_singleton] at hx
      subst hx
      exact h2

@[simp] theorem emit_m_Target (call : Call) (c : Canvas F) : (c.emit call).m_Target = c.m_Target := rfl
@[simp] theorem emit_m_GdipGraphics (call : Call) (c : Canvas F) :
    (c.emit call).m_GdipGraphics = c.m_GdipGraphics := rfl
@[simp] theorem emit_m_CanUseAxisAlignClip (call : Call) (c : Canvas F) :
    (c.emit call).m_CanUseAxisAlignClip = c.m_CanUseAxisAlignClip := rfl

theorem idle_emit (call : Call) (c : Canvas F) (h : GdipDrawsIdle c.calls)
    (hc : call.isGdipDraw = true → c.m_Target = none) : GdipDrawsIdle (c.emit call).calls := by
  unfold emit
  simp only [GdipDrawsIdle_append]
  refine ⟨h, fun hd => ?_⟩
  simp [hc hd]

theorem idle_emit_iff (call : Call) (c : Canvas F) (hc : call.isGdipDraw = false) :
    GdipDrawsIdle (c.emit call).calls ↔ GdipDrawsIdle c.calls := by
  unfold emit
  simp only [GdipDrawsIdle_append]
  simp [hc]

@[simp] theorem targetSetTransform_calls (m : Matrix3x2 F) (c : Canvas F) :
    (targetSetTransform m c).calls = c.calls := by
  unfold targetSetTransform; split <;> rfl

@[simp] theorem targetSetAliased_calls (b : Bool) (c : Canvas F) :
    (targetSetAliased b c).calls = c.calls := by
  unfold targetSetAliased; split <;> rfl

@[simp] theorem targetSetAliased_isSome (b : Bool) (c : Canvas F) :
    (targetSetAliased b c).m_Target.isSome = c.m_Target.isSome := by
  unfold targetSetAliased; split <;> simp_all

@[simp] theorem targetSetTransform_isSome (m : Matrix3x2 F) (c : Canvas F) :
    (targetSetTransform m c).m_Target.isSome = c.m_Target.isSome := by
  unfold targetSetTransform; split <;> simp_all

theorem idle_EndTargetDraw (c : Canvas F) (h : GdipDrawsIdle c.calls) :
    GdipDrawsIdle (EndTargetDraw c).calls := by
  unfold EndTargetDraw
  split
  · exact idle_emit _ _ h (by simp [Call.isGdipDraw])
  · exact h

@[simp] theorem EndTargetDraw_m_Target (c : Canvas F) : (EndTargetDraw c).m_Target = none := by
  unfold EndTargetDraw
  split
  · rfl
  · assumption

@[simp] theorem SetTextAntiAliasing_calls (b : Bool) (c : Canvas F) :
    (SetTextAntiAliasing b c).calls = c.calls := by
  unfold SetTextAntiAliasing; simp only; split <;> rfl

set_option linter.unusedSectionVars false
variable [Real32 F]

@[simp] theorem UpdateTargetTransform_calls (c : Canvas F) :
    (UpdateTargetTransform c).calls = c.calls := by
  simp [UpdateTargetTransform]

theorem idle_BeginTargetDraw (ok : Bool) (c : Canvas F) (h : GdipDrawsIdle c.calls) :
    GdipDrawsIdle (BeginTargetDraw ok c).2.calls := by
  unfold BeginTargetDraw
  split
  · exact h
  · split
    · simp only [UpdateTargetTransform_calls]
      apply idle_emit _ _ _ (by simp [Call.isGdipDraw])
      simpa using h
    · exact h

theorem idle_DrawTextW (format : TextFormat) (a : Bool) (ext : Ext) (c : Canvas F)
    (h : GdipDrawsIdle c.calls) : GdipDrawsIdle (DrawTextW format a ext c).calls := by
  have h1 := idle_BeginTargetDraw ext.createTargetOk c h
  unfold DrawTextW
  split
  · next c1 heq => rw [heq] at h1; exact h1
  · next c1 heq =>
    rw [heq] at h1
    simp only at h1
    by_cases hcl : c1.m_CanUseAxisAlignClip = true <;> split_ifs <;>
      simp [idle_emit_iff, Call.isGdipDraw, h1, hcl]

theorem idle_DrawBitmap (d r : Rect) (ext : Ext) (c : Canvas F)
    (h : GdipDrawsIdle c.calls) : GdipDrawsIdle (DrawBitmap d r ext c).calls := by
  unfold DrawBitmap
  simp only
  have h1 : GdipDrawsIdle (if r.Width ≠ d.Width ∨ r.Height ≠ d.Height then EndTargetDraw c else c).calls := by
    split
    · exact idle_EndTargetDraw c h
    · exact h
  generalize (if r.Width ≠ d.Width ∨ r.Height ≠ d.Height then EndTargetDraw c else c) = c1 at h1 ⊢
  split
  · next hn => exact idle_emit _ _ h1 (fun _ => by simpa using hn)
  · split_ifs <;> simp [idle_emit_iff, Call.isGdipDraw, h1]

theorem idle_DrawMaskedBitmap (ext : Ext) (c : Canvas F)
    (h : GdipDrawsIdle c.calls) : GdipDrawsIdle (DrawMaskedBitmap ext c).calls := by
  have h1 := idle_BeginTargetDraw ext.createTargetOk c h
  unfold DrawMaskedBitmap
  split
  · next c1 heq => rw [heq] at h1; exact h1
  · next c1 heq =>
    rw [heq] at h1
    simp only at h1
    split_ifs <;> simp [idle_emit_iff, Call.isGdipDraw, h1]

theorem idle_FillRectangle (r : Rect) (ext : Ext) (c : Canvas F)
    (h : GdipDrawsIdle c.calls) : GdipDrawsIdle (FillRectangle r ext c).calls := by
  unfold FillRectangle
  split
  · next hn => exact idle_emit _ _ h (fun _ => by simpa using hn)
  · split_ifs <;> simp [idle_emit_iff, Call.isGdipDraw, h]

theorem idle_DrawGeometry (shape : DrawnShape F) (x y : Int) (ext : Ext) (c : Canvas F)
    (h : GdipDrawsIdle c.calls) : GdipDrawsIdle (DrawGeometry shape x y ext c).calls := by
  have h1 := idle_BeginTargetDraw ext.createTargetOk c h
  unfold DrawGeometry
  split
  · next c1 heq => rw [heq] at h1; exact h1
  · next c1 heq =>
    rw [heq] at h1
    simp only at h1
    split
    · exact h1
    · simp only [targetSetTransform_calls]
      split_ifs <;> simp [idle_emit_iff, Call.isGdipDraw, h1]

theorem idle_Clear (color : Color) (c : Canvas F)
    (h : GdipDrawsIdle c.calls) : GdipDrawsIdle (Clear color c).calls := by
  unfold Clear
  split
  · next hn => exact idle_emit _ _ h (fun _ => by simpa using hn)
  · exact idle_emit _ _ h (by simp [Call.isGdipDraw])

theorem step_GdipDrawsIdle (c : Canvas F) (op : Op F) (h : GdipDrawsIdle c.calls) :
    GdipDrawsIdle (step c op).calls := by
  cases op with
  | Resize w h0 a => exact h
  | BeginDraw => exact h
  | EndDraw => exact idle_EndTargetDraw c h
  | BeginGdiplusContext => exact idle_EndTargetDraw c h
  | EndGdiplusContext => exact h
  | GetDC => exact idle_EndTargetDraw c h
  | SetTransform m =>
    simp only [step, SetTransform]
    split
    · simpa using h
    · exact h
  | ResetTransform =>
    simp only [step, ResetTransform]
    split
    · simpa using h
    · exact h
  | RotateTransform a x y dx dy =>
    simp only [step, RotateTransform]
    split
    · simpa using h
    · exact h
  | SetAntiAliasing e => exact h
  | SetTextAntiAliasing e => simpa [step] using h
  | Clear color => exact idle_Clear color c h
  | DrawTextW f a ext => exact idle_DrawTextW f a ext c h
  | DrawBitmap d r ext => exact idle_DrawBitmap d r ext c h
  | DrawMaskedBitmap ext => exact idle_DrawMaskedBitmap ext c h
  | FillRectangle r ext => exact idle_FillRectangle r ext c h
  | DrawGeometry s x y ext => exact idle_DrawGeometry s x y ext c h

theorem run_GdipDrawsIdle (ops : List (Op F)) (c : Canvas F) (h : GdipDrawsIdle c.calls) :
    GdipDrawsIdle (run ops c).calls := by
  induction ops generalizing c with
  | nil => exact h
  | cons op ops ih => exact ih (step c op) (step_GdipDrawsIdle c op h)

/-! ### The session transform follows the GDI+ transform -/

omit [Real32 F] in
theorem Synced_of_none (c : Canvas F) (h : c.m_Target = none) : Synced c := by
  intro t ht
  rw [h] at ht
  cases ht

omit [Real32 F] in
@[simp] theorem Synced_emit (call : Call) (c : Canvas F) : Synced (c.emit call) ↔ Synced c :=
  Iff.rfl

omit [Real32 F] in
@[simp] theorem targetSetAliased_m_GdipGraphics (b : Bool) (c : Canvas F) :
    (targetSetAliased b c).m_GdipGraphics = c.m_GdipGraphics := by
  unfold targetSetAliased; split <;> rfl

omit [Real32 F] in
@[simp] theorem targetSetTransform_m_GdipGraphics (m : Matrix3x2 F) (c : Canvas F) :
    (targetSetTransform m c).m_GdipGraphics = c.m_GdipGraphics := by
  unfold targetSetTransform; split <;> rfl

omit [Real32 F] in
theorem Synced_targetSetAliased (b : Bool) (c : Canvas F) (h : Synced c) :
    Synced (targetSetAliased b c) := by
  unfold targetSetAliased
  split
  · next t ht =>
    intro t2 ht2
    simp only [Option.some.injEq] at ht2
    subst ht2
    exact h t ht
  · exact h

omit [Real32 F] in
theorem Synced_targetSetTransform (c : Canvas F) :
    Synced (targetSetTransform c.m_GdipGraphics.transform c) := by
  unfold targetSetTransform
  split
  · intro t2 ht2
    simp only [Option.some.injEq] at ht2
    subst ht2
    rfl
  · next hn => exact Synced_of_none c hn

theorem Synced_UpdateTargetTransform (c : Canvas F) : Synced (UpdateTargetTransform c) := by
  have h := Synced_targetSetTransform c
  intro t ht
  exact h t ht

omit [Real32 F] in
theorem Synced_SetTextAntiAliasing (b : Bool) (c : Canvas F) (h : Synced c) :
    Synced (SetTextAntiAliasing b c) := by
  unfold SetTextAntiAliasing
  simp only
  split
  · next t ht =>
    intro t2 ht2
    simp only [Option.some.injEq] at ht2
    subst ht2
    exact h t ht
  · exact h

theorem Synced_BeginTargetDraw (ok : Bool) (c : Canvas F) (h : Synced c) :
    Synced (BeginTargetDraw ok c).2 := by
  unfold BeginTargetDraw
  split
  · exact h
  · split
    · exact Synced_UpdateTargetTransform _
    · exact h

theorem BeginTargetDraw_isSome (ok : Bool) (c c1 : Canvas F)
    (h : BeginTargetDraw ok c = (true, c1)) : c1.m_Target.isSome = true := by
  unfold BeginTargetDraw at h
  split at h
  · next hs =>
    simp only [Prod.mk.injEq, true_and] at h
    subst h
    exact hs
  · split at h
    · simp only [Prod.mk.injEq, true_and] at h
      subst h
      simp [UpdateTargetTransform, targetSetTransform, SetTextAntiAliasing]
    · simp at h

theorem BeginTargetDraw_m_GdipGraphics (ok : Bool) (c : Canvas F) :
    (BeginTargetDraw ok c).2.m_GdipGraphics = c.m_GdipGraphics := by
  unfold BeginTargetDraw
  split
  · rfl
  · split
    · simp [UpdateTargetTransform, SetTextAntiAliasing]
    · rfl

theorem Synced_DrawTextW (format : TextFormat) (a : Bool) (ext : Ext) (c : Canvas F)
    (h : Synced c) : Synced (DrawTextW format a ext c) := by
  have h1 := Synced_BeginTargetDraw ext.createTargetOk c h
  unfold DrawTextW
  split
  · next c1 heq => rw [heq] at h1; exact h1
  · next c1 heq =>
    rw [heq] at h1
    simp only at h1
    by_cases hcl : c1.m_CanUseAxisAlignClip = true <;> split_ifs <;> simp [h1, hcl]

omit [Real32 F] in
theorem Synced_DrawBitmap (d r : Rect) (ext : Ext) (c : Canvas F)
    (h : Synced c) : Synced (DrawBitmap d r ext c) := by
  unfold DrawBitmap
  simp only
  have h1 : Synced (if r.Width ≠ d.Width ∨ r.Height ≠ d.Height then EndTargetDraw c else c) := by
    split
    · exact Synced_of_none _ (EndTargetDraw_m_Target c)
    · exact h
  generalize (if r.Width ≠ d.Width ∨ r.Height ≠ d.Height then EndTargetDraw c else c) = c1 at h1 ⊢
  split_ifs <;> simp [h1]

theorem Synced_DrawMaskedBitmap (ext : Ext) (c : Canvas F)
    (h : Synced c) : Synced (DrawMaskedBitmap ext c) := by
  have h1 := Synced_BeginTargetDraw ext.createTargetOk c h
  unfold DrawMaskedBitmap
  split
  · next c1 heq => rw [heq] at h1; exact h1
  · next c1 heq =>
    rw [heq] at h1
    simp only at h1
    split_ifs <;> simp [h1]
    exact Synced_targetSetAliased _ _ ((Synced_emit _ _).2 (Synced_targetSetAliased _ _ (by simpa using h1)))

omit [Real32 F] in
theorem Synced_FillRectangle (r : Rect) (ext : Ext) (c : Canvas F)
    (h : Synced c) : Synced (FillRectangle r ext c) := by
  unfold FillRectangle
  split_ifs <;> simp [h]

omit [Real32 F] in
theorem Synced_Clear (color : Color) (c : Canvas F) (h : Synced c) : Synced (Clear color c) := by
  unfold Clear
  split_ifs <;> exact h

theorem DrawGeometry_spec (shape : DrawnShape F) (x y : Int) (ext : Ext) (c c1 : Canvas F)
    (t : RenderTarget F) (h : BeginTargetDraw ext.createTargetOk c = (true, c1))
    (ht : c1.m_Target = some t) :
    (DrawGeometry shape x y ext c).m_Target = some t ∧
    (DrawGeometry shape x y ext c).m_GdipGraphics = c.m_GdipGraphics ∧
    (DrawGeometry shape x y ext c).calls =
      c1.calls ++ geometryEvents shape ext.createBrushOk (geometryTransform shape t.transform x y) := by
  have hg := BeginTargetDraw_m_GdipGraphics ext.createTargetOk c
  rw [h] at hg
  simp only at hg
  unfold DrawGeometry
  rw [h]
  simp only [ht]
  refine ⟨?_, ?_, ?_⟩
  · split_ifs <;> simp [targetSetTransform, ht, emit]
  · split_ifs <;> simp [hg]
  · split_ifs <;> simp_all [geometryEvents, targetSetTransform, ht, emit]

theorem Synced_DrawGeometry (shape : DrawnShape F) (x y : Int) (ext : Ext) (c : Canvas F)
    (h : Synced c) : Synced (DrawGeometry shape x y ext c) := by
  have h1 := Synced_BeginTargetDraw ext.createTargetOk c h
  have hg := BeginTargetDraw_m_GdipGraphics ext.createTargetOk c
  rcases hb : BeginTargetDraw ext.createTargetOk c with ⟨b, c1⟩
  rw [hb] at h1 hg
  simp only at h1 hg
  cases b with
  | false =>
    unfold DrawGeometry
    rw [hb]
    exact h1
  | true =>
    have hs := BeginTargetDraw_isSome _ _ _ hb
    obtain ⟨t, ht⟩ := Option.isSome_iff_exists.1 hs
    obtain ⟨e1, e2, _⟩ := DrawGeometry_spec shape x y ext c c1 t hb ht
    intro t2 ht2
    rw [e1] at ht2
    simp only [Option.some.injEq] at ht2
    subst ht2
    rw [e2, ← hg]
    exact h1 t ht

theorem step_Synced (c : Canvas F) (op : Op F) (h : Synced c) : Synced (step c op) := by
  cases op with
  | Resize w h0 a => exact Synced_of_none _ rfl
  | BeginDraw => exact h
  | EndDraw => exact Synced_of_none _ (EndTargetDraw_m_Target c)
  | BeginGdiplusContext => exact Synced_of_none _ (EndTargetDraw_m_Target c)
  | EndGdiplusContext => exact h
  | GetDC => exact Synced_of_none _ (EndTargetDraw_m_Target c)
  | SetTransform m =>
    simp only [step, SetTransform]
    split
    · exact Synced_UpdateTargetTransform _
    · next hn => exact Synced_of_none _ (by simpa using hn)
  | ResetTransform =>
    simp only [step, ResetTransform]
    split
    · exact Synced_targetSetTransform
        { c with m_GdipGraphics := { c.m_GdipGraphics with transform := Matrix3x2.Identity } }
    · next hn => exact Synced_of_none _ (by simpa using hn)
  | RotateTransform a x y dx dy =>
    simp only [step, RotateTransform]
    split
    · exact Synced_UpdateTargetTransform _
    · next hn => exact Synced_of_none _ (by simpa using hn)
  | SetAntiAliasing e => exact h
  | SetTextAntiAliasing e => exact Synced_SetTextAntiAliasing e c h
  | Clear color => exact Synced_Clear color c h
  | DrawTextW f a ext => exact Synced_DrawTextW f a ext c h
  | DrawBitmap d r ext => exact Synced_DrawBitmap d r ext c h
  | DrawMaskedBitmap ext => exact Synced_DrawMaskedBitmap ext c h
  | FillRectangle r ext => exact Synced_FillRectangle r ext c h
  | DrawGeometry s x y ext => exact Synced_DrawGeometry s x y ext c h

theorem run_Synced (ops : List (Op F)) (c : Canvas F) (h : Synced c) : Synced (run ops c) := by
  induction ops generalizing c with
  | nil => exact h
  | cons op ops ih => exact ih (step c op) (step_Synced c op h)

/-! ### Dimensions -/

omit [Real32 F] in
@[simp] theorem emit_m_W (call : Call) (c : Canvas F) : (c.emit call).m_W = c.m_W := rfl
omit [Real32 F] in
@[simp] theorem emit_m_H (call : Call) (c : Canvas F) : (c.emit call).m_H = c.m_H := rfl

omit [Real32 F] in
@[simp] theorem targetSetTransform_dims (m : Matrix3x2 F) (c : Canvas F) :
    (targetSetTransform m c).m_W = c.m_W ∧ (targetSetTransform m c).m_H = c.m_H := by
  unfold targetSetTransform; split <;> simp

omit [Real32 F] in
@[simp] theorem targetSetAliased_dims (b : Bool) (c : Canvas F) :
    (targetSetAliased b c).m_W = c.m_W ∧ (targetSetAliased b c).m_H = c.m_H := by
  unfold targetSetAliased; split <;> simp

omit [Real32 F] in
@[simp] theorem EndTargetDraw_dims (c : Canvas F) :
    (EndTargetDraw c).m_W = c.m_W ∧ (EndTargetDraw c).m_H = c.m_H := by
  unfold EndTargetDraw; split <;> simp

omit [Real32 F] in
@[simp] theorem SetTextAntiAliasing_dims (b : Bool) (c : Canvas F) :
    (SetTextAntiAliasing b c).m_W = c.m_W ∧ (SetTextAntiAliasing b c).m_H = c.m_H := by
  unfold SetTextAntiAliasing; simp only; split <;> simp

@[simp] theorem UpdateTargetTransform_dims (c : Canvas F) :
    (UpdateTargetTransform c).m_W = c.m_W ∧ (UpdateTargetTransform c).m_H = c.m_H := by
  simp [UpdateTargetTransform]

@[simp] theorem BeginTargetDraw_dims (ok : Bool) (c : Canvas F) :
    (BeginTargetDraw ok c).2.m_W = c.m_W ∧ (BeginTargetDraw ok c).2.m_H = c.m_H := by
  unfold BeginTargetDraw
  split_ifs <;> simp

theorem step_dims (c : Canvas F) (op : Op F) (h : op.isResize = false) :
    (step c op).m_W = c.m_W ∧ (step c op).m_H = c.m_H := by
  cases op with
  | Resize w h0 a => simp [Op.isResize] at h
  | BeginDraw => exact ⟨rfl, rfl⟩
  | EndDraw => exact EndTargetDraw_dims c
  | BeginGdiplusContext => exact EndTargetDraw_dims c
  | EndGdiplusContext => exact ⟨rfl, rfl⟩
  | GetDC => exact EndTargetDraw_dims c
  | SetTransform m => simp only [step, SetTransform]; split_ifs <;> simp
  | ResetTransform => simp only [step, ResetTransform]; split_ifs <;> simp
  | RotateTransform a x y dx dy => simp only [step, RotateTransform]; split_ifs <;> simp
  | SetAntiAliasing e => exact ⟨rfl, rfl⟩
  | SetTextAntiAliasing e => exact SetTextAntiAliasing_dims e c
  | Clear color => simp only [step, Clear]; split_ifs <;> simp
  | DrawTextW f a ext =>
    have h1 := BeginTargetDraw_dims ext.createTargetOk c
    simp only [step, DrawTextW]
    split
    · next c1 heq => rw [heq] at h1; exact h1
    · next c1 heq =>
      rw [heq] at h1
      simp only at h1
      by_cases hcl : c1.m_CanUseAxisAlignClip = true <;> split_ifs <;> simp [h1, hcl]
  | DrawBitmap d r ext =>
    simp only [step, DrawBitmap]
    split_ifs <;> simp
  | DrawMaskedBitmap ext =>
    have h1 := BeginTargetDraw_dims ext.createTargetOk c
    simp only [step, DrawMaskedBitmap]
    split
    · next c1 heq => rw [heq] at h1; exact h1
    · next c1 heq =>
      rw [heq] at h1
      simp only at h1
      split_ifs <;> simp [h1]
  | FillRectangle r ext => simp only [step, FillRectangle]; split_ifs <;> simp
  | DrawGeometry s x y ext =>
    have h1 := BeginTargetDraw_dims ext.createTargetOk c
    simp only [step, DrawGeometry]
    split
    · next c1 heq => rw [heq] at h1; exact h1
    · next c1 heq =>
      rw [heq] at h1
      simp only at h1
      split
      · exact h1
      · split_ifs <;> simp [h1]

theorem run_dims (ops : List (Op F)) (c : Canvas F) (h : ∀ op ∈ ops, op.isResize = false) :
    (run ops c).m_W = c.m_W ∧ (run ops c).m_H = c.m_H := by
  induction ops generalizing c with
  | nil => exact ⟨rfl, rfl⟩
  | cons op ops ih =>
    have h1 := step_dims c op (h op (List.mem_cons_self _ _))
    have h2 := ih (step c op) (fun o ho => h o (List.mem_cons_of_mem _ ho))
    exact ⟨h2.1.trans h1.1, h2.2.trans h1.2⟩

theorem run_append (ops1 ops2 : List (Op F)) (c : Canvas F) :
    run (ops1 ++ ops2) c = run ops2 (run ops1 c) := by
  simp [run, List.foldl_append]

/-! ### Claims about `Gfx::Canvas` -/

/-- C1: in every sequence of canvas operations, started with an empty call
record, each GDI+ draw the canvas issues (`Graphics::Clear`,
`Graphics::FillRectangle`, `Graphics::DrawImage`) is issued while `m_Target` is
null; and `BeginGdiplusContext` and `GetDC` return with `m_Target` null after
any sequence of operations. -/
theorem C1_gdip_draws_only_without_session (ops : List (Op F)) (c : Canvas F) :
    GdipDrawsIdle (run ops { c with calls := [] }).calls ∧
    (run (ops ++ [Op.BeginGdiplusContext]) c).m_Target = none ∧
    (run (ops ++ [Op.GetDC]) c).m_Target = none := by
  refine ⟨run_GdipDrawsIdle ops _ ?_, ?_, ?_⟩
  · intro e he
    cases he
  · rw [run_append]
    exact EndTargetDraw_m_Target _
  · rw [run_append]
    exact EndTargetDraw_m_Target _

/-- C2: starting from a canvas whose session, if any, carries the transform of
`m_GdipGraphics`, after every sequence of canvas operations (with session
creation succeeding or failing) a live session has a transform matrix equal to
the current transform of `m_GdipGraphics`. -/
theorem C2_session_transform_equals_gdip_transform (ops : List (Op F)) (c : Canvas F)
    (h : Synced c) (t : RenderTarget F) (ht : (run ops c).m_Target = some t) :
    t.transform = (run ops c).m_GdipGraphics.transform :=
  run_Synced ops c h t ht

/-- C4: when `DrawGeometry` obtains a session, the session it leaves is exactly
the session it had after ensuring it (same world transform, whether or not the
brush creation succeeds), the transform of `m_GdipGraphics` is unchanged, and
the brush, fill and stroke calls are all issued under
`shapeMatrix * worldTransform * Translation(xPos, yPos)`. -/
theorem C4_DrawGeometry_restores_world_transform (shape : DrawnShape F) (xPos yPos : Int)
    (ext : Ext) (c : Canvas F) (h : (BeginTargetDraw ext.createTargetOk c).1 = true) :
    ∃ t, (BeginTargetDraw ext.createTargetOk c).2.m_Target = some t ∧
      (DrawGeometry shape xPos yPos ext c).m_Target = some t ∧
      (DrawGeometry shape xPos yPos ext c).m_GdipGraphics = c.m_GdipGraphics ∧
      (DrawGeometry shape xPos yPos ext c).calls =
        (BeginTargetDraw ext.createTargetOk c).2.calls ++
          geometryEvents shape ext.createBrushOk
            (Matrix3x2.SetProduct (Matrix3x2.SetProduct shape.shapeMatrix t.transform)
              (Matrix3x2.Translation (Real32.ofInt xPos) (Real32.ofInt yPos))) := by
  have hb : BeginTargetDraw ext.createTargetOk c =
      (true, (BeginTargetDraw ext.createTargetOk c).2) := by
    rw [← h]
  have hs := BeginTargetDraw_isSome _ _ _ hb
  obtain ⟨t, ht⟩ := Option.isSome_iff_exists.1 hs
  exact ⟨t, ht, DrawGeometry_spec shape xPos yPos ext c _ t hb ht⟩

/-- Witness for C2: a rotation, a geometry draw, a reset and another rotation on
a fresh 4x4 canvas leave a live session whose transform is the GDI+ one. -/
theorem C2_session_transform_witness :
    Synced (Canvas.sized 4 4) ∧
    (run [Op.RotateTransform 90 1 2 3 4, Op.DrawGeometry ⟨⟨2, 0, 0, 2, 1, 1⟩, 1, 1, 1⟩ 5 6 Ext.allOk,
        Op.ResetTransform, Op.RotateTransform 90 1 2 3 4] (Canvas.sized 4 4)).m_Target =
      some ⟨⟨0, 1, -1, 0, -3, 5⟩, false, false⟩ ∧
    (⟨0, 1, -1, 0, -3, 5⟩ : Matrix3x2 Int) =
      (run [Op.RotateTransform 90 1 2 3 4, Op.DrawGeometry ⟨⟨2, 0, 0, 2, 1, 1⟩, 1, 1, 1⟩ 5 6 Ext.allOk,
        Op.ResetTransform, Op.RotateTransform 90 1 2 3 4]
        (Canvas.sized 4 4)).m_GdipGraphics.transform :=
  ⟨Synced_of_none _ rfl, by decide,
   C2_session_transform_equals_gdip_transform _ (Canvas.sized 4 4) (Synced_of_none _ rfl)
     ⟨⟨0, 1, -1, 0, -3, 5⟩, false, false⟩ (by decide)⟩

/-- Witness for C4: a shape scaled by two drawn at (5, 6) on a canvas rotated by
90 degrees; the session is created by the call. -/
theorem C4_DrawGeometry_witness :
    (BeginTargetDraw Ext.allOk.createTargetOk
      (RotateTransform 90 1 2 3 4 (Canvas.sized 4 4))).1 = true ∧
    ∃ t, (BeginTargetDraw Ext.allOk.createTargetOk
        (RotateTransform 90 1 2 3 4 (Canvas.sized 4 4))).2.m_Target = some t ∧
      (DrawGeometry ⟨⟨2, 0, 0, 2, 1, 1⟩, 1, 1, 1⟩ 5 6 Ext.allOk
        (RotateTransform 90 1 2 3 4 (Canvas.sized 4 4))).m_Target = some t ∧
      (DrawGeometry ⟨⟨2, 0, 0, 2, 1, 1⟩, 1, 1, 1⟩ 5 6 Ext.allOk
        (RotateTransform 90 1 2 3 4 (Canvas.sized 4 4))).m_GdipGraphics =
        (RotateTransform 90 1 2 3 4 (Canvas.sized 4 4)).m_GdipGraphics ∧
      (DrawGeometry ⟨⟨2, 0, 0, 2, 1, 1⟩, 1, 1, 1⟩ 5 6 Ext.allOk
        (RotateTransform 90 1 2 3 4 (Canvas.sized 4 4))).calls =
        (BeginTargetDraw Ext.allOk.createTargetOk
          (RotateTransform 90 1 2 3 4 (Canvas.sized 4 4))).2.calls ++
          geometryEvents ⟨⟨2, 0, 0, 2, 1, 1⟩, 1, 1, 1⟩ Ext.allOk.createBrushOk
            (Matrix3x2.SetProduct (Matrix3x2.SetProduct ⟨2, 0, 0, 2, 1, 1⟩ t.transform)
              (Matrix3x2.Translation (Real32.ofInt 5) (Real32.ofInt 6))) :=
  ⟨by decide,
   C4_DrawGeometry_restores_world_transform ⟨⟨2, 0, 0, 2, 1, 1⟩, 1, 1, 1⟩ 5 6 Ext.allOk
     (RotateTransform 90 1 2 3 4 (Canvas.sized 4 4)) (by decide)⟩

/-- C3, counterexample to the claim as stated: on a canvas with no session,
`DrawBitmap` with source and destination of equal width and height (every
platform call succeeding) issues `Graphics::DrawImage` and nothing else: no
pixel lock and no render-target draw. -/
theorem C3_DrawBitmap_equal_size_idle_uses_gdip :
    (Canvas.sized 4 4).m_Target = none ∧
    (DrawBitmap ⟨0, 0, 4, 4⟩ ⟨1, 1, 4, 4⟩ Ext.allOk (Canvas.sized 4 4)).calls =
      [⟨Call.gdipDrawImage ⟨0, 0, 4, 4⟩ ⟨1, 1, 4, 4⟩, false, none⟩] ∧
    (DrawBitmap ⟨0, 0, 4, 4⟩ ⟨1, 1, 4, 4⟩ Ext.allOk (Canvas.sized 4 4)).m_Target = none := by
  decide

omit [Real32 F] in
/-- C3 as amended: `DrawBitmap` routing.  (1) When the rectangles differ in
width or height the open session is ended, the only draw is
`Graphics::DrawImage` and the canvas returns with no session.  (2) When they
agree and no session is live, the draw is again `Graphics::DrawImage` alone,
with no pixel lock.  (3) When they agree and a session is live, the session is
kept, no GDI+ call is made, and the calls are: lock the source read-only, then,
if the lock succeeds, create the shared bitmap, draw it through the render
target if that succeeds, and unlock. -/
theorem C3_DrawBitmap_routing (dstRect srcRect : Rect) (ext : Ext) (c : Canvas F) :
    ((srcRect.Width ≠ dstRect.Width ∨ srcRect.Height ≠ dstRect.Height) →
      DrawBitmap dstRect srcRect ext c =
        (EndTargetDraw c).emit (.gdipDrawImage dstRect srcRect) ∧
      (DrawBitmap dstRect srcRect ext c).m_Target = none ∧
      (DrawBitmap dstRect srcRect ext c).calls =
        (EndTargetDraw c).calls ++ [⟨.gdipDrawImage dstRect srcRect, false, none⟩]) ∧
    ((srcRect.Width = dstRect.Width ∧ srcRect.Height = dstRect.Height) → c.m_Target = none →
      (DrawBitmap dstRect srcRect ext c).m_Target = none ∧
      (DrawBitmap dstRect srcRect ext c).calls =
        c.calls ++ [⟨.gdipDrawImage dstRect srcRect, false, none⟩]) ∧
    ((srcRect.Width = dstRect.Width ∧ srcRect.Height = dstRect.Height) →
      ∀ t, c.m_Target = some t →
      (DrawBitmap dstRect srcRect ext c).m_Target = some t ∧
      (DrawBitmap dstRect srcRect ext c).calls =
        c.calls ++ sharedBitmapEvents dstRect srcRect ext t.transform) := by
  refine ⟨fun hne => ?_, fun heq hn => ?_, fun heq t ht => ?_⟩
  · have h0 : (EndTargetDraw c).m_Target = none := EndTargetDraw_m_Target c
    unfold DrawBitmap
    simp only [if_pos hne, h0]
    simp [emit, h0]
  · have hne : ¬ (srcRect.Width ≠ dstRect.Width ∨ srcRect.Height ≠ dstRect.Height) := by
      simp [heq.1, heq.2]
    unfold DrawBitmap
    simp only [if_neg hne, hn]
    simp [emit, hn]
  · have hne : ¬ (srcRect.Width ≠ dstRect.Width ∨ srcRect.Height ≠ dstRect.Height) := by
      simp [heq.1, heq.2]
    unfold DrawBitmap
    simp only [if_neg hne, ht]
    split_ifs <;> simp_all [emit, sharedBitmapEvents]

/-- Witness for C3 as amended: the three routes on concrete canvases (scaled
draw with a live session, unscaled draw without a session, unscaled draw with a
live session). -/
theorem C3_DrawBitmap_routing_witness :
    ((⟨1, 1, 2, 2⟩ : Rect).Width ≠ (⟨0, 0, 4, 4⟩ : Rect).Width ∨
      (⟨1, 1, 2, 2⟩ : Rect).Height ≠ (⟨0, 0, 4, 4⟩ : Rect).Height) ∧
    ((BeginTargetDraw true (Canvas.sized 4 4)).2.m_Target =
      some ⟨⟨1, 0, 0, 1, 0, 0⟩, false, false⟩) ∧
    (DrawBitmap ⟨0, 0, 4, 4⟩ ⟨1, 1, 2, 2⟩ Ext.allOk
      (BeginTargetDraw true (Canvas.sized 4 4)).2).m_Target = none ∧
    (DrawBitmap ⟨0, 0, 4, 4⟩ ⟨1, 1, 4, 4⟩ Ext.allOk (Canvas.sized 4 4)).m_Target = none ∧
    (DrawBitmap ⟨0, 0, 4, 4⟩ ⟨1, 1, 4, 4⟩ Ext.allOk
      (BeginTargetDraw true (Canvas.sized 4 4)).2).calls =
      (BeginTargetDraw true (Canvas.sized 4 4)).2.calls ++
        sharedBitmapEvents ⟨0, 0, 4, 4⟩ ⟨1, 1, 4, 4⟩ Ext.allOk ⟨1, 0, 0, 1, 0, 0⟩ :=
  ⟨by decide, by decide,
   ((C3_DrawBitmap_routing ⟨0, 0, 4, 4⟩ ⟨1, 1, 2, 2⟩ Ext.allOk
      (BeginTargetDraw true (Canvas.sized 4 4)).2).1 (by decide)).2.1,
   ((C3_DrawBitmap_routing ⟨0, 0, 4, 4⟩ ⟨1, 1, 4, 4⟩ Ext.allOk
      (Canvas.sized 4 4)).2.1 (by decide) (by decide)).1,
   ((C3_DrawBitmap_routing ⟨0, 0, 4, 4⟩ ⟨1, 1, 4, 4⟩ Ext.allOk
      (BeginTargetDraw true (Canvas.sized 4 4)).2).2.2 (by decide)
      ⟨⟨1, 0, 0, 1, 0, 0⟩, false, false⟩ (by decide)).2⟩

/-- C5, the code at the failing input: on a 2x2 canvas cleared with the fully
transparent colour (alpha 0) `IsTransparentPixel(0, 0)` reads index 0 and
returns false, and on one cleared with an opaque colour (alpha 255)
`IsTransparentPixel(1, 1)` reads index 3 and returns true. -/
theorem C5_IsTransparentPixel_inverted :
    IsTransparentPixel 0 0 (Clear { a := 0, r := 0, g := 0, b := 0 } (Canvas.sized 2 2)) =
      ⟨false, some 0⟩ ∧
    IsTransparentPixel 1 1 (Clear { a := 255, r := 0, g := 0, b := 0 } (Canvas.sized 2 2)) =
      ⟨true, some 3⟩ := by
  decide

/-- C6: after any operations, a `Resize(w, h)` and any operations that are not
a resize, `IsTransparentPixel(x, y)` with `x < 0`, `y < 0`, `x >= w` or `y >= h`
returns false without reading the pixel buffer. -/
theorem C6_IsTransparentPixel_out_of_range (pre post : List (Op F)) (w h : Int) (allocOk : Bool)
    (c : Canvas F) (x y : Int) (hpost : ∀ op ∈ post, op.isResize = false)
    (hout : x < 0 ∨ y < 0 ∨ x ≥ w ∨ y ≥ h) :
    IsTransparentPixel x y (run (pre ++ [Op.Resize w h allocOk] ++ post) c) = ⟨false, none⟩ := by
  have hd := run_dims post (run (pre ++ [Op.Resize w h allocOk]) c) hpost
  have hr : (run (pre ++ [Op.Resize w h allocOk]) c).m_W = w ∧
      (run (pre ++ [Op.Resize w h allocOk]) c).m_H = h := by
    rw [run_append]
    exact ⟨rfl, rfl⟩
  rw [run_append]
  unfold IsTransparentPixel
  rw [hd.1, hd.2, hr.1, hr.2]
  have hn : ¬ (x ≥ 0 ∧ y ≥ 0 ∧ x < w ∧ y < h) := by
    rintro ⟨h1, h2, h3, h4⟩
    omega
  simp only [if_pos hn]

/-- Witness for C6: a canvas resized to 50x50, then to 10x10 and cleared; pixel
(20, 20) is out of range. -/
theorem C6_IsTransparentPixel_witness :
    ((20 : Int) < 0 ∨ (20 : Int) < 0 ∨ (20 : Int) ≥ 10 ∨ (20 : Int) ≥ 10) ∧
    IsTransparentPixel 20 20
      (run ([Op.Resize 50 50 true] ++ [Op.Resize 10 10 true] ++
        [Op.Clear { a := 0, r := 0, g := 0, b := 0 }]) (Canvas.sized 4 4)) = ⟨false, none⟩ :=
  ⟨by decide,
   C6_IsTransparentPixel_out_of_range [Op.Resize 50 50 true]
     [Op.Clear { a := 0, r := 0, g := 0, b := 0 }] 10 10 true (Canvas.sized 4 4) 20 20
     (by decide) (by decide)⟩

/-! ### The axis-aligned clip flag -/

theorem UpdateTargetTransform_flag (c : Canvas F) :
    (UpdateTargetTransform c).m_CanUseAxisAlignClip =
      (Real32.isZero c.m_GdipGraphics.transform.m12 &&
        Real32.isZero c.m_GdipGraphics.transform.m21 &&
        Real32.isZero c.m_GdipGraphics.transform.m31 &&
        Real32.isZero c.m_GdipGraphics.transform.m32) := rfl

theorem SetTransform_flag (matrix : Matrix3x2 F) (c : Canvas F) (h : c.m_Target.isSome = true) :
    (SetTransform matrix c).m_CanUseAxisAlignClip =
      (Real32.isZero matrix.m12 && Real32.isZero matrix.m21 &&
        Real32.isZero matrix.m31 && Real32.isZero matrix.m32) := by
  unfold SetTransform
  simp only [h, if_true]
  rfl

theorem RotateTransform_flag (angle x y dx dy : F) (c : Canvas F)
    (h : c.m_Target.isSome = true) :
    (RotateTransform angle x y dx dy c).m_CanUseAxisAlignClip =
      (Real32.isZero (RotateTransform angle x y dx dy c).m_GdipGraphics.transform.m12 &&
        Real32.isZero (RotateTransform angle x y dx dy c).m_GdipGraphics.transform.m21 &&
        Real32.isZero (RotateTransform angle x y dx dy c).m_GdipGraphics.transform.m31 &&
        Real32.isZero (RotateTransform angle x y dx dy c).m_GdipGraphics.transform.m32) := by
  unfold RotateTransform
  simp only [h, if_true]
  simp [UpdateTargetTransform]

theorem ResetTransform_flag (c : Canvas F) :
    (ResetTransform c).m_CanUseAxisAlignClip = c.m_CanUseAxisAlignClip := by
  unfold ResetTransform
  dsimp only
  split_ifs
  · unfold targetSetTransform
    split <;> rfl
  · rfl

/-- C13, the code at the failing input: a session is opened by a geometry draw,
`SetTransform` installs a translation by (5, 5), which clears the flag, and
`ResetTransform` then makes the session transform the identity but leaves
`m_CanUseAxisAlignClip` false.  `SetTransform` with the identity instead of
`ResetTransform` sets the flag. -/
theorem C13_ResetTransform_leaves_flag_stale :
    (run [Op.DrawGeometry ⟨⟨1, 0, 0, 1, 0, 0⟩, 1, 1, 1⟩ 0 0 Ext.allOk,
        Op.SetTransform ⟨1, 0, 0, 1, 5, 5⟩, Op.ResetTransform] (Canvas.sized 4 4)).m_Target =
      some ⟨⟨1, 0, 0, 1, 0, 0⟩, false, false⟩ ∧
    (run [Op.DrawGeometry ⟨⟨1, 0, 0, 1, 0, 0⟩, 1, 1, 1⟩ 0 0 Ext.allOk,
        Op.SetTransform ⟨1, 0, 0, 1, 5, 5⟩, Op.ResetTransform]
        (Canvas.sized 4 4)).m_CanUseAxisAlignClip = false ∧
    (run [Op.DrawGeometry ⟨⟨1, 0, 0, 1, 0, 0⟩, 1, 1, 1⟩ 0 0 Ext.allOk,
        Op.SetTransform ⟨1, 0, 0, 1, 5, 5⟩, Op.SetTransform ⟨1, 0, 0, 1, 0, 0⟩]
        (Canvas.sized 4 4)).m_CanUseAxisAlignClip = true := by
  decide

end Gfx.Canvas

/-! ## Theorems about `MeterShape` -/

namespace MeterShape

/-! ### Auxiliary facts -/

theorem truncate_step (a num : Int) (den : Nat) (hd : 0 < den) :
    (if a * den < num then Int.tdiv num den else a) = max a (Int.tdiv num den) := by
  have hd : (0 : Int) < den := by exact_mod_cast hd
  by_cases h : a * den < num
  · rw [if_pos h]
    have : a ≤ Int.tdiv num den := by
      rcases le_or_lt 0 num with hn | hn
      · rw [Int.tdiv_eq_ediv hn (le_of_lt hd)]
        exact Int.le_ediv_of_mul_le hd (le_of_lt h)
      · have e : Int.tdiv num den = -(Int.tdiv (-num) den) := by
          rw [Int.neg_tdiv, neg_neg]
        rw [e, Int.tdiv_eq_ediv (by omega) (le_of_lt hd)]
        have : (-num) / (den : Int) < -a := Int.ediv_lt_of_lt_mul hd (by linarith)
        omega
    omega
  · rw [if_neg h]
    have : Int.tdiv num den ≤ a := by
      rcases le_or_lt 0 num with hn | hn
      · rw [Int.tdiv_eq_ediv hn (le_of_lt hd)]
        exact Int.ediv_le_of_le_mul hd (by linarith)
      · have e : Int.tdiv num den = -(Int.tdiv (-num) den) := by
          rw [Int.neg_tdiv, neg_neg]
        rw [e, Int.tdiv_eq_ediv (by omega) (le_of_lt hd)]
        have : -a ≤ (-num) / (den : Int) := Int.le_ediv_of_mul_le hd (by linarith)
        omega
    omega

theorem round_of_Exact24 (a : Int) (h : Exact24 a) : FLOAT.round a = a := by
  obtain ⟨h1, h2⟩ := h
  have hn : a.natAbs < 16777216 := by omega
  have hq : FLOAT.quantum a.natAbs a.natAbs 1 = 1 := by
    cases hk : a.natAbs with
    | zero => rfl
    | succ k =>
      rw [FLOAT.quantum, Nat.div_one, if_pos (by omega)]
  unfold FLOAT.round
  have hsig : (if 1 < 0 ∨ 0 = 1 ∧ a.natAbs % 2 = 1 then a.natAbs + 1 else a.natAbs) =
      a.natAbs := if_neg (by omega)
  simp only [hq, Nat.div_one, Nat.mod_one, Nat.mul_one, Nat.mul_zero, hsig]
  split_ifs <;> omega

theorem truncate_of_exact24 (r : FLOAT) (h : r.exact24 = true) : Exact24 r.truncate := by
  cases r with
  | finite num den hd =>
    simpa only [FLOAT.exact24, decide_eq_true_eq] using h
  | infinity negative => simp [FLOAT.exact24] at h
  | nan => simp [FLOAT.exact24] at h

theorem updateExtent_exact (a : Int) (r : FLOAT) (ha : Exact24 a) (hr : r.exact24 = true) :
    updateExtent false a r = .ok (max a r.truncate) := by
  cases r with
  | finite num den hd =>
    simp only [FLOAT.exact24, decide_eq_true_eq] at hr
    have hin : -2147483648 ≤ Int.tdiv num den ∧ Int.tdiv num den ≤ 2147483647 := by omega
    have hstep := truncate_step a num den hd
    unfold updateExtent FLOAT.ofInt FLOAT.integer
    rw [round_of_Exact24 a ha]
    simp only [FLOAT.lt, FLOAT.toInt, FLOAT.truncate, if_pos hin, Bool.false_eq_true,
      not_false_eq_true, true_and, decide_eq_true_eq, Nat.cast_one, mul_one]
    rw [← hstep]
    split_ifs <;> rfl
  | infinity negative => simp [FLOAT.exact24] at hr
  | nan => simp [FLOAT.exact24] at hr

theorem exact24_integer (v : Int) (h : Exact24 v) : (FLOAT.integer v).exact24 = true := by
  obtain ⟨h1, h2⟩ := h
  simp only [FLOAT.integer, FLOAT.exact24, decide_eq_true_eq, Nat.cast_one, Int.tdiv_one]
  exact ⟨h1, h2⟩

theorem truncate_integer (v : Int) : (FLOAT.integer v).truncate = v := by
  simp only [FLOAT.integer, FLOAT.truncate, Nat.cast_one, Int.tdiv_one]

theorem updateExtent_ne_outOfFuel (defined : Bool) (a : Int) (r : FLOAT) :
    updateExtent defined a r ≠ .error .outOfFuel := by
  unfold updateExtent
  split_ifs
  · split <;> (intro h; cases h)
  · intro h
    cases h

theorem updateExtent_of_toInt (defined : Bool) (a : Int) (r : FLOAT) (h : r.toInt ≠ none) :
    ∃ v, updateExtent defined a r = .ok v := by
  unfold updateExtent
  split_ifs
  · cases hr : r.toInt with
    | none => exact absurd hr h
    | some v => exact ⟨v, rfl⟩
  · exact ⟨a, rfl⟩

theorem updateBounds_ok (platform : Platform) (m m3 : MeterShape)
    (h : updateBounds platform m = .ok m3) :
    ∃ s w h, m.m_Shapes.getLast? = some s ∧
      updateExtent m.m_WDefined m.m_W (platform.GetBounds s).right = .ok w ∧
      updateExtent m.m_HDefined m.m_H (platform.GetBounds s).bottom = .ok h ∧
      m3 = { m with m_W := w, m_H := h } := by
  unfold updateBounds at h
  cases hs : m.m_Shapes.getLast? with
  | none => rw [hs] at h; cases h
  | some s =>
    rw [hs] at h
    dsimp only at h
    cases hw : updateExtent m.m_WDefined m.m_W (platform.GetBounds s).right with
    | error e => rw [hw] at h; cases h
    | ok w =>
      rw [hw] at h
      dsimp only at h
      cases hh : updateExtent m.m_HDefined m.m_H (platform.GetBounds s).bottom with
      | error e => rw [hh] at h; cases h
      | ok v =>
        rw [hh] at h
        simp only [Except.ok.injEq] at h
        exact ⟨s, w, v, rfl, hw, hh, h.symm⟩

theorem Exact24_runningMax (l : List Int) (start : Int) (hs : Exact24 start)
    (hl : ∀ v ∈ l, Exact24 v) : Exact24 (runningMax start l) := by
  induction l generalizing start with
  | nil => exact hs
  | cons v l ih =>
    have hv := hl v (List.mem_cons_self _ _)
    refine ih (max start v) ?_ (fun u hu => hl u (List.mem_cons_of_mem _ hu))
    unfold Exact24 at hs hv ⊢
    omega

theorem combine_not_rectangle (s : WString) (h : wcsnicmpEq s "COMBINE".toList 7 = true) :
    wcsnicmpEq s "RECTANGLE".toList 9 = false := by
  unfold wcsnicmpEq at h ⊢
  cases s with
  | nil => simp at h
  | cons c s =>
    have e1 : ("COMBINE".toList.take 7).map Char.toLower = ['c', 'o', 'm', 'b', 'i', 'n', 'e'] := by
      decide
    have e2 : ("RECTANGLE".toList.take 9).map Char.toLower =
        ['r', 'e', 'c', 't', 'a', 'n', 'g', 'l', 'e'] := by decide
    rw [e1] at h
    rw [e2]
    simp only [List.take_succ_cons, List.map_cons, beq_iff_eq, List.cons.injEq] at h
    simp only [List.take_succ_cons, List.map_cons, beq_eq_false_iff_ne, ne_eq, List.cons.injEq,
      not_and]
    intro hr
    rw [h.1] at hr
    exact absurd hr (by decide)

theorem runningMax_append (start : Int) (l : List Int) (x : Int) :
    runningMax start (l ++ [x]) = max (runningMax start l) x := by
  simp [runningMax, List.foldl_append]

theorem le_runningMax_start (l : List Int) (start : Int) : start ≤ runningMax start l := by
  induction l generalizing start with
  | nil => simp [runningMax]
  | cons x l ih =>
    have := ih (max start x)
    simp only [runningMax, List.foldl_cons] at this ⊢
    omega

theorem le_runningMax_of_mem (l : List Int) (start x : Int) (hx : x ∈ l) :
    x ≤ runningMax start l := by
  induction l generalizing start with
  | nil => cases hx
  | cons y l ih =>
    simp only [runningMax, List.foldl_cons]
    rcases List.mem_cons.1 hx with h | h
    · subst h
      have := le_runningMax_start l (max start x)
      simp only [runningMax] at this
      omega
    · exact ih (max start y) h


theorem SameButLast.refl (m : MeterShape) : SameButLast m m :=
  ⟨rfl, rfl, rfl, rfl, rfl, rfl⟩

theorem SameButLast.trans {a b c : MeterShape} (h1 : SameButLast a b) (h2 : SameButLast b c) :
    SameButLast a c := by
  unfold SameButLast at h1 h2 ⊢
  refine ⟨h2.1.trans h1.1, h2.2.1.trans h1.2.1, h2.2.2.1.trans h1.2.2.1, ?_, ?_, ?_⟩
  · exact h2.2.2.2.1.trans h1.2.2.2.1
  · exact h2.2.2.2.2.1.trans h1.2.2.2.2.1
  · exact h2.2.2.2.2.2.trans h1.2.2.2.2.2

theorem SameButLast_LogErrorF (format : String) (args : List WString) (m : MeterShape) :
    SameButLast m (LogErrorF format args m) :=
  ⟨rfl, rfl, rfl, rfl, rfl, rfl⟩

theorem SameButLast_LogWarningF (format : String) (args : List WString) (m : MeterShape) :
    SameButLast m (LogWarningF format args m) :=
  ⟨rfl, rfl, rfl, rfl, rfl, rfl⟩

theorem dropLast_set_last (l : List Gfx.Shape) (x : Gfx.Shape) :
    (l.set (l.length - 1) x).dropLast = l.dropLast := by
  rw [List.dropLast_eq_take, List.dropLast_eq_take, List.length_set, List.set_take,
    List.set_eq_of_length_le]
  simp

theorem SameButLast_modifyBack (f : Gfx.Shape → Gfx.Shape) (m : MeterShape) :
    SameButLast m (modifyBack f m) := by
  unfold modifyBack modifyShape
  split
  · exact ⟨rfl, rfl, rfl, rfl, by simp, dropLast_set_last _ _⟩
  · exact SameButLast.refl m

theorem foldlM_related {α : Type} (R : MeterShape → MeterShape → Prop)
    (hrefl : ∀ m, R m m) (htrans : ∀ a b c, R a b → R b c → R a c)
    (f : MeterShape → α → Except Fault MeterShape)
    (hf : ∀ m x n, f m x = .ok n → R m n) :
    ∀ (l : List α) (m n : MeterShape), l.foldlM f m = .ok n → R m n := by
  intro l
  induction l with
  | nil =>
    intro m n h
    simp only [List.foldlM_nil, pure, Except.pure, Except.ok.injEq] at h
    subst h
    exact hrefl m
  | cons x l ih =>
    intro m n h
    rw [List.foldlM_cons] at h
    cases hx : f m x with
    | error e => rw [hx] at h; cases h
    | ok k =>
      rw [hx] at h
      exact htrans _ _ _ (hf m x k hx) (ih k n h)

theorem parseModifier_SameButLast (parser : ConfigParser)
    (self : List WString → MeterShape → Except Fault MeterShape)
    (hself : ∀ a m n, self a m = .ok n → SameButLast m n) (recursive : Bool)
    (m : MeterShape) (option : WString) (n : MeterShape)
    (h : parseModifier parser self recursive m option = .ok n) : SameButLast m n := by
  unfold parseModifier at h
  dsimp only at h
  split_ifs at h <;>
    first
    | (simp only [Except.ok.injEq] at h; subst h
       first
       | exact SameButLast_modifyBack _ _
       | exact SameButLast_LogErrorF _ _ _
       | exact SameButLast_LogWarningF _ _ _)
    | skip
  refine foldlM_related SameButLast SameButLast.refl (fun _ _ _ => SameButLast.trans) _ ?_
    _ m n h
  intro m2 extend n2 h2
  split_ifs at h2
  · exact hself _ _ _ h2
  · simp only [Except.ok.injEq] at h2
    subst h2
    exact SameButLast.refl _

theorem ParseModifiers_SameButLast (parser : ConfigParser) :
    ∀ (depth : Nat) (args : List WString) (recursive : Bool) (m n : MeterShape),
      ParseModifiers parser depth args recursive m = .ok n → SameButLast m n := by
  intro depth
  induction depth with
  | zero =>
    intro args recursive m n h
    simp [ParseModifiers] at h
  | succ depth ih =>
    intro args recursive m n h
    rw [ParseModifiers] at h
    split at h
    · cases h
    · exact foldlM_related SameButLast SameButLast.refl (fun _ _ _ => SameButLast.trans) _
        (parseModifier_SameButLast parser _ (fun a m n h => ih a true m n h) recursive)
        args m n h

theorem createShapeLambda_cases (platform : Platform) (keyId : Nat) (shape : Gfx.Shape)
    (m : MeterShape) :
    ((createShapeLambda platform keyId shape m).1 = true ∧ false = false ∧
      ∃ s, (createShapeLambda platform keyId shape m).2 =
        { m with m_Shapes := m.m_Shapes ++ [s] }) ∨
    ((createShapeLambda platform keyId shape m).1 = true ∧ false = true ∧
      (createShapeLambda platform keyId shape m).2 = m) ∨
    ((createShapeLambda platform keyId shape m).1 = false ∧ false = false ∧
      (createShapeLambda platform keyId shape m).2 =
        { m with log := (createShapeLambda platform keyId shape m).2.log }) := by
  unfold createShapeLambda
  dsimp only
  by_cases hex : platform.DoesShapeExist shape = true
  · rw [if_pos hex]
    exact Or.inl ⟨rfl, rfl, shape, rfl⟩
  · rw [if_neg hex]
    exact Or.inr (Or.inr ⟨rfl, rfl, rfl⟩)

/-- What `CreateShape` can do: append one shape and return true, leave the
shapes alone and report a combine directive, or log and return false. -/
theorem CreateShape_cases (parser : ConfigParser) (platform : Platform) (args : List WString)
    (keyId : Nat) (m : MeterShape) (b c : Bool) (n : MeterShape)
    (h : CreateShape parser platform args keyId m = .ok (b, c, n)) :
    (b = true ∧ c = false ∧ ∃ s, n = { m with m_Shapes := m.m_Shapes ++ [s] }) ∨
    (b = true ∧ c = true ∧ n = m) ∨
    (b = false ∧ c = false ∧ n = { m with log := n.log }) := by
  unfold CreateShape at h
  split at h
  · cases h
  · dsimp only at h
    split_ifs at h <;>
      (simp only [Except.ok.injEq, Prod.mk.injEq] at h
       obtain ⟨h1, h2, h3⟩ := h
       subst h1 h2 h3
       first
       | exact Or.inr (Or.inl ⟨rfl, rfl, rfl⟩)
       | exact Or.inr (Or.inr ⟨rfl, rfl, rfl⟩)
       | exact createShapeLambda_cases _ _ _ _)

theorem SizeTracksShapes_update_new (platform : Platform) (w0 h0 : Int) (m m2 m3 : MeterShape)
    (s : Gfx.Shape) (hm : SizeTracksShapes platform w0 h0 m)
    (h2 : SameButLast { m with m_Shapes := m.m_Shapes ++ [s] } m2)
    (hu : updateBounds platform m2 = .ok m3) : SizeTracksShapes platform w0 h0 m3 := by
  obtain ⟨a1, a2, a3, a4, a5, a6⟩ := h2
  obtain ⟨b1, b2, b3, b4⟩ := hm
  simp only [List.length_append, List.length_singleton, List.dropLast_concat] at a5 a6
  have hne : m2.m_Shapes ≠ [] := by
    intro h0
    rw [h0] at a5
    simp at a5
  have hl := List.dropLast_append_getLast hne
  rw [a6] at hl
  have hs : m2.m_Shapes.getLast? = some (m2.m_Shapes.getLast hne) := List.getLast?_eq_getLast _ hne
  obtain ⟨t, w, v, ht, hw, hv, e3⟩ := updateBounds_ok platform m2 m3 hu
  rw [hs, Option.some.injEq] at ht
  subst e3
  rw [a3.trans b1, a1] at hw
  rw [a4.trans b2, a2] at hv
  refine ⟨a3.trans b1, a4.trans b2, ?_, ?_⟩
  · intro e0 hall
    show w = runningMax w0 (m2.m_Shapes.map (rightOf platform))
    have hall2 : ∀ u ∈ m.m_Shapes ++ [t], (platform.GetBounds u).right.exact24 = true := by
      rw [← ht, hl]
      exact hall
    have hprev := b3 e0 (fun u hu => hall2 u (List.mem_append_left _ hu))
    have hex : Exact24 m.m_W := by
      rw [hprev]
      refine Exact24_runningMax _ _ e0 ?_
      intro x hx
      obtain ⟨u, hu, rfl⟩ := List.mem_map.mp hx
      exact truncate_of_exact24 _ (hall2 u (List.mem_append_left _ hu))
    rw [updateExtent_exact _ _ hex (hall2 t (List.mem_append_right _ (List.mem_singleton_self _))),
      Except.ok.injEq] at hw
    rw [← hl, ht, List.map_append, List.map_singleton, runningMax_append, ← hprev, ← hw]
    rfl
  · intro e0 hall
    show v = runningMax h0 (m2.m_Shapes.map (bottomOf platform))
    have hall2 : ∀ u ∈ m.m_Shapes ++ [t], (platform.GetBounds u).bottom.exact24 = true := by
      rw [← ht, hl]
      exact hall
    have hprev := b4 e0 (fun u hu => hall2 u (List.mem_append_left _ hu))
    have hex : Exact24 m.m_H := by
      rw [hprev]
      refine Exact24_runningMax _ _ e0 ?_
      intro x hx
      obtain ⟨u, hu, rfl⟩ := List.mem_map.mp hx
      exact truncate_of_exact24 _ (hall2 u (List.mem_append_left _ hu))
    rw [updateExtent_exact _ _ hex (hall2 t (List.mem_append_right _ (List.mem_singleton_self _))),
      Except.ok.injEq] at hv
    rw [← hl, ht, List.map_append, List.map_singleton, runningMax_append, ← hprev, ← hv]
    rfl

theorem SizeTracksShapes_update_same (platform : Platform) (w0 h0 : Int) (m m3 : MeterShape)
    (hm : SizeTracksShapes platform w0 h0 m) (h : updateBounds platform m = .ok m3) :
    SizeTracksShapes platform w0 h0 m3 := by
  obtain ⟨b1, b2, b3, b4⟩ := hm
  obtain ⟨t, w, v, ht, hw, hv, e3⟩ := updateBounds_ok platform m m3 h
  subst e3
  rw [b1] at hw
  rw [b2] at hv
  have hmem : t ∈ m.m_Shapes := List.mem_of_getLast?_eq_some ht
  refine ⟨b1, b2, ?_, ?_⟩
  · intro e0 hall
    show w = runningMax w0 (m.m_Shapes.map (rightOf platform))
    have hprev := b3 e0 hall
    have hex : Exact24 m.m_W := by
      rw [hprev]
      refine Exact24_runningMax _ _ e0 ?_
      intro x hx
      obtain ⟨u, hu, rfl⟩ := List.mem_map.mp hx
      exact truncate_of_exact24 _ (hall u hu)
    rw [updateExtent_exact _ _ hex (hall t hmem), Except.ok.injEq] at hw
    have r1 : rightOf platform t ≤ runningMax w0 (m.m_Shapes.map (rightOf platform)) :=
      le_runningMax_of_mem _ _ _ (List.mem_map_of_mem _ hmem)
    rw [← hw, hprev]
    exact max_eq_left r1
  · intro e0 hall
    show v = runningMax h0 (m.m_Shapes.map (bottomOf platform))
    have hprev := b4 e0 hall
    have hex : Exact24 m.m_H := by
      rw [hprev]
      refine Exact24_runningMax _ _ e0 ?_
      intro x hx
      obtain ⟨u, hu, rfl⟩ := List.mem_map.mp hx
      exact truncate_of_exact24 _ (hall u hu)
    rw [updateExtent_exact _ _ hex (hall t hmem), Except.ok.injEq] at hv
    have r2 : bottomOf platform t ≤ runningMax h0 (m.m_Shapes.map (bottomOf platform)) :=
      le_runningMax_of_mem _ _ _ (List.mem_map_of_mem _ hmem)
    rw [← hv, hprev]
    exact max_eq_left r2

theorem shapeLoop_SizeTracksShapes (parser : ConfigParser) (platform : Platform) (w0 h0 : Int) :
    ∀ (fuel i : Nat) (shape : WString) (m : MeterShape) (cs : List (Nat × WString))
      (n : MeterShape) (cs2 : List (Nat × WString)),
      SizeTracksShapes platform w0 h0 m →
      shapeLoop parser platform fuel i shape m cs = .ok (n, cs2) →
      SizeTracksShapes platform w0 h0 n := by
  intro fuel
  induction fuel with
  | zero =>
    intro i shape m cs n cs2 _ h
    simp [shapeLoop] at h
  | succ fuel ih =>
    intro i shape m cs n cs2 hm h
    rw [shapeLoop] at h
    split_ifs at h with hempty
    · simp only [Except.ok.injEq, Prod.mk.injEq] at h
      rw [← h.1]
      exact hm
    · dsimp only at h
      cases hc : CreateShape parser platform (parser.Tokenize shape "|".toList) (i - 1) m with
      | error e => rw [hc] at h; cases h
      | ok r =>
        obtain ⟨b, c, m1⟩ := r
        rw [hc] at h
        rcases CreateShape_cases parser platform _ _ m b c m1 hc with
          ⟨hb, hcf, s, hs⟩ | ⟨hb, hct, hmm⟩ | ⟨hb, hcf, hmm⟩
        · subst hb hcf
          simp only [Bool.false_eq_true, if_false] at h
          cases hp : ParseModifiers parser 2 (parser.Tokenize shape "|".toList).tail false m1 with
          | error e => rw [hp] at h; cases h
          | ok m2 =>
            rw [hp] at h
            dsimp only at h
            have hsame := ParseModifiers_SameButLast parser _ _ _ _ _ hp
            rw [hs] at hsame
            cases hu : updateBounds platform m2 with
            | error e => rw [hu] at h; cases h
            | ok m3 =>
              rw [hu] at h
              exact ih _ _ _ _ _ _
                (SizeTracksShapes_update_new platform w0 h0 m m2 m3 s hm hsame hu) h
        · subst hb hct hmm
          simp only [if_true] at h
          cases hu : updateBounds platform m1 with
          | error e => rw [hu] at h; cases h
          | ok m3 =>
            rw [hu] at h
            exact ih _ _ _ _ _ _ (SizeTracksShapes_update_same platform w0 h0 m1 m3 hm hu) h
        · subst hb hcf
          simp only [Except.ok.injEq, Prod.mk.injEq] at h
          rw [← h.1, hmm]
          exact hm

/-! ### The second pass leaves the size alone -/

@[simp] theorem modifyShape_m_W (i : Nat) (f : Gfx.Shape → Gfx.Shape) (m : MeterShape) :
    (modifyShape i f m).m_W = m.m_W := by
  unfold modifyShape
  split <;> rfl

@[simp] theorem modifyShape_m_H (i : Nat) (f : Gfx.Shape → Gfx.Shape) (m : MeterShape) :
    (modifyShape i f m).m_H = m.m_H := by
  unfold modifyShape
  split <;> rfl

@[simp] theorem showError_m_W (shapeId : Nat) (d : String) (e : WString) (m : MeterShape) :
    (showError shapeId d e m).m_W = m.m_W := rfl

@[simp] theorem showError_m_H (shapeId : Nat) (d : String) (e : WString) (m : MeterShape) :
    (showError shapeId d e m).m_H = m.m_H := rfl

@[simp] theorem insertShape_m_W (i : Nat) (s : Gfx.Shape) (m : MeterShape) :
    (insertShape i s m).m_W = m.m_W := rfl

@[simp] theorem insertShape_m_H (i : Nat) (s : Gfx.Shape) (m : MeterShape) :
    (insertShape i s m).m_H = m.m_H := rfl

theorem combineOperands_size (platform : Platform) (shapeId : Nat) :
    ∀ (args : List WString) (m : MeterShape) (b : Bool) (n : MeterShape),
      combineOperands platform shapeId args m = .ok (b, n) → n.m_W = m.m_W ∧ n.m_H = m.m_H := by
  intro args
  induction args with
  | nil =>
    intro m b n h
    simp only [combineOperands, Except.ok.injEq, Prod.mk.injEq] at h
    rw [← h.2]
    exact ⟨rfl, rfl⟩
  | cons option rest ih =>
    intro m b n h
    rw [combineOperands] at h
    repeat' (first | split at h | (dsimp only at h; split at h))
    all_goals
      first
      | (cases h; done)
      | (simp only [Except.ok.injEq, Prod.mk.injEq] at h
         obtain ⟨-, rfl⟩ := h
         simp)
      | (have hsize := ih _ _ _ h
         simpa using hsize)

theorem CreateCombinedShape_size (platform : Platform) (shapeId : Nat) (args : List WString)
    (m : MeterShape) (b : Bool) (n : MeterShape)
    (h : CreateCombinedShape platform shapeId args m = .ok (b, n)) :
    n.m_W = m.m_W ∧ n.m_H = m.m_H := by
  unfold CreateCombinedShape at h
  repeat' (first | split at h | (dsimp only at h; split at h))
  all_goals
    first
    | (cases h; done)
    | (simp only [Except.ok.injEq, Prod.mk.injEq] at h
       obtain ⟨-, rfl⟩ := h
       simp)
    | (have hsize := combineOperands_size _ _ _ _ _ _ h
       simpa using hsize)

theorem combineLoop_size (parser : ConfigParser) (platform : Platform) :
    ∀ (entries : List (Nat × WString)) (m n : MeterShape),
      combineLoop parser platform entries m = .ok n → n.m_W = m.m_W ∧ n.m_H = m.m_H := by
  intro entries
  induction entries with
  | nil =>
    intro m n h
    simp only [combineLoop, Except.ok.injEq] at h
    rw [← h]
    exact ⟨rfl, rfl⟩
  | cons shape rest ih =>
    intro m n h
    rw [combineLoop] at h
    cases hc : CreateCombinedShape platform shape.1 (parser.Tokenize shape.2 "|".toList) m with
    | error e => rw [hc] at h; cases h
    | ok r =>
      obtain ⟨b, m1⟩ := r
      rw [hc] at h
      have h1 := CreateCombinedShape_size platform _ _ m b m1 hc
      cases b with
      | false =>
        simp only [Except.ok.injEq] at h
        rw [← h]
        exact h1
      | true =>
        have h2 := ih m1 n h
        exact ⟨h2.1.trans h1.1, h2.2.trans h1.2⟩


/-! ### Fuel -/

theorem foldlM_ne_error {α : Type} (e : Fault) (f : MeterShape → α → Except Fault MeterShape)
    (hf : ∀ m x, f m x ≠ .error e) :
    ∀ (l : List α) (m : MeterShape), l.foldlM f m ≠ .error e := by
  intro l
  induction l with
  | nil =>
    intro m h
    simp [List.foldlM_nil, pure, Except.pure] at h
  | cons x l ih =>
    intro m h
    rw [List.foldlM_cons] at h
    cases hx : f m x with
    | error e2 =>
      rw [hx] at h
      simp only [bind, Except.bind, Except.error.injEq] at h
      exact hf m x (h ▸ hx)
    | ok k =>
      rw [hx] at h
      exact ih k h

theorem parseModifier_ne_outOfFuel (parser : ConfigParser)
    (self : List WString → MeterShape → Except Fault MeterShape) (recursive : Bool)
    (hself : recursive = false → ∀ a m, self a m ≠ .error .outOfFuel)
    (m : MeterShape) (option : WString) :
    parseModifier parser self recursive m option ≠ .error .outOfFuel := by
  unfold parseModifier
  dsimp only
  split_ifs with h1 h2 h3 h4 h5 h6 h7 h8 h9 h10 h11 <;> try (intro h; cases h)
  refine foldlM_ne_error _ _ ?_ _ _
  intro m2 extend
  dsimp only
  split_ifs
  · exact hself (by simpa using h11) _ _
  · intro h
    cases h

theorem ParseModifiers_recursive_ne_outOfFuel (parser : ConfigParser) (depth : Nat)
    (args : List WString) (m : MeterShape) :
    ParseModifiers parser (depth + 1) args true m ≠ .error .outOfFuel := by
  rw [ParseModifiers]
  split_ifs
  · intro h
    cases h
  · exact foldlM_ne_error _ _
      (parseModifier_ne_outOfFuel parser _ true (fun h => by cases h)) _ _

theorem ParseModifiers_ne_outOfFuel (parser : ConfigParser) (depth : Nat)
    (args : List WString) (recursive : Bool) (m : MeterShape) :
    ParseModifiers parser (depth + 2) args recursive m ≠ .error .outOfFuel := by
  rw [ParseModifiers]
  split_ifs
  · intro h
    cases h
  · exact foldlM_ne_error _ _
      (parseModifier_ne_outOfFuel parser _ recursive
        (fun _ a m => ParseModifiers_recursive_ne_outOfFuel parser depth a m)) _ _

theorem CreateShape_ne_outOfFuel (parser : ConfigParser) (platform : Platform)
    (args : List WString) (keyId : Nat) (m : MeterShape) :
    CreateShape parser platform args keyId m ≠ .error .outOfFuel := by
  unfold CreateShape
  split
  · intro h
    cases h
  · dsimp only
    split_ifs <;> (intro h; cases h)

theorem updateBounds_ne_outOfFuel (platform : Platform) (m : MeterShape) :
    updateBounds platform m ≠ .error .outOfFuel := by
  unfold updateBounds
  split
  · intro h
    cases h
  · dsimp only
    split
    · intro h
      simp only [Except.error.injEq] at h
      subst h
      exact updateExtent_ne_outOfFuel _ _ _ (by assumption)
    · split
      · intro h
        simp only [Except.error.injEq] at h
        subst h
        exact updateExtent_ne_outOfFuel _ _ _ (by assumption)
      · intro h
        cases h

theorem advance_ne_outOfFuel (p : WString) (n : Nat) : advance p n ≠ .error .outOfFuel := by
  unfold advance
  split_ifs <;> (intro h; cases h)

theorem combineOperands_ne_outOfFuel (platform : Platform) (shapeId : Nat) :
    ∀ (args : List WString) (m : MeterShape),
      combineOperands platform shapeId args m ≠ .error .outOfFuel := by
  intro args
  induction args with
  | nil =>
    intro m h
    simp [combineOperands] at h
  | cons option rest ih =>
    intro m h
    rw [combineOperands] at h
    repeat' (first | split at h | (dsimp only at h; split at h))
    all_goals
      first
      | (cases h; done)
      | (simp only [Except.error.injEq] at h
         subst h
         exact advance_ne_outOfFuel _ _ (by assumption))
      | exact ih _ h

theorem CreateCombinedShape_ne_outOfFuel (platform : Platform) (shapeId : Nat)
    (args : List WString) (m : MeterShape) :
    CreateCombinedShape platform shapeId args m ≠ .error .outOfFuel := by
  intro h
  unfold CreateCombinedShape at h
  repeat' (first | split at h | (dsimp only at h; split at h))
  all_goals
    first
    | (cases h; done)
    | (simp only [Except.error.injEq] at h
       subst h
       exact advance_ne_outOfFuel _ _ (by assumption))
    | exact combineOperands_ne_outOfFuel _ _ _ _ h

theorem combineLoop_ne_outOfFuel (parser : ConfigParser) (platform : Platform) :
    ∀ (entries : List (Nat × WString)) (m : MeterShape),
      combineLoop parser platform entries m ≠ .error .outOfFuel := by
  intro entries
  induction entries with
  | nil =>
    intro m h
    simp [combineLoop] at h
  | cons shape rest ih =>
    intro m h
    rw [combineLoop] at h
    cases hc : CreateCombinedShape platform shape.1 (parser.Tokenize shape.2 "|".toList) m with
    | error e =>
      rw [hc] at h
      simp only [Except.error.injEq] at h
      exact CreateCombinedShape_ne_outOfFuel _ _ _ _ (h ▸ hc)
    | ok r =>
      obtain ⟨b, m1⟩ := r
      rw [hc] at h
      cases b with
      | false => cases h
      | true => exact ih m1 h

theorem shapeLoop_ne_outOfFuel (parser : ConfigParser) (platform : Platform) :
    ∀ (k fuel i : Nat) (shape : WString) (m : MeterShape) (cs : List (Nat × WString)),
      k < fuel →
      (if k = 0 then shape else parser.ReadString (shapeKey (i + k))) = [] →
      shapeLoop parser platform fuel i shape m cs ≠ .error .outOfFuel := by
  intro k
  induction k with
  | zero =>
    intro fuel i shape m cs hk he
    obtain ⟨f, rfl⟩ : ∃ f, fuel = f + 1 := ⟨fuel - 1, by omega⟩
    simp only [if_true] at he
    rw [shapeLoop, if_pos he]
    intro h
    cases h
  | succ k ih =>
    intro fuel i shape m cs hk he
    obtain ⟨f, rfl⟩ : ∃ f, fuel = f + 1 := ⟨fuel - 1, by omega⟩
    rw [shapeLoop]
    split_ifs
    · intro h
      cases h
    · dsimp only
      have hnext : ∀ m3 cs3, shapeLoop parser platform f (i + 1)
          (parser.ReadString (shapeKey (i + 1))) m3 cs3 ≠ .error .outOfFuel := by
        intro m3 cs3
        apply ih f (i + 1) _ m3 cs3 (by omega)
        simp only [Nat.add_eq_zero, one_ne_zero, and_false, if_false] at he
        by_cases hk0 : k = 0
        · subst hk0
          simpa using he
        · simp only [hk0, if_false]
          rw [show i + 1 + k = i + (k + 1) by omega]
          exact he
      cases hc : CreateShape parser platform (parser.Tokenize shape "|".toList) (i - 1) m with
      | error e =>
        intro h
        simp only [Except.error.injEq] at h
        exact CreateShape_ne_outOfFuel _ _ _ _ _ (h ▸ hc)
      | ok r =>
        obtain ⟨b, c, m1⟩ := r
        cases b with
        | false =>
          intro h
          cases h
        | true =>
          dsimp only
          cases c with
          | true =>
            simp only [if_true]
            cases hu : updateBounds platform m1 with
            | error e =>
              intro h
              simp only [Except.error.injEq] at h
              exact updateBounds_ne_outOfFuel _ _ (h ▸ hu)
            | ok m3 => exact hnext _ _
          | false =>
            simp only [Bool.false_eq_true, if_false]
            cases hp : ParseModifiers parser 2 (parser.Tokenize shape "|".toList).tail false m1
              with
            | error e =>
              intro h
              simp only [Except.error.injEq] at h
              exact ParseModifiers_ne_outOfFuel parser 0 _ _ _ (h ▸ hp)
            | ok m2 =>
              dsimp only
              cases hu : updateBounds platform m2 with
              | error e =>
                intro h
                simp only [Except.error.injEq] at h
                exact updateBounds_ne_outOfFuel _ _ (h ▸ hu)
              | ok m3 => exact hnext _ _

theorem ReadOptions_ne_outOfFuel (parser : ConfigParser) (platform : Platform)
    (k fuel : Nat) (m : MeterShape) (hk : k < fuel)
    (he : (if k = 0 then parser.ReadString "Shape".toList
      else parser.ReadString (shapeKey (1 + k))) = []) :
    ReadOptions parser platform fuel m ≠ .error .outOfFuel := by
  unfold ReadOptions
  cases hl : shapeLoop parser platform fuel 1 (parser.ReadString "Shape".toList) (Dispose m) []
    with
  | error e =>
    intro h
    simp only [Except.error.injEq] at h
    exact shapeLoop_ne_outOfFuel parser platform k fuel 1 _ _ _ hk he (h ▸ hl)
  | ok r =>
    obtain ⟨m1, cs⟩ := r
    exact combineLoop_ne_outOfFuel parser platform _ _

/-! ### Claims about `MeterShape` -/

/-- C7, the code at the failing input: with three squares in the list, the
directive at declaration index 2 (`shapeId` 1) naming parent `Shape3` is
accepted; the clone of the third square is inserted at position 1, but the flag
is set on the second square (the element that moved to position 2), and the
third square, whose clone was inserted, stays unmarked.  The same happens
through `ReadOptions`. -/
theorem C7_parent_after_directive_marks_other_shape :
    CreateCombinedShape (Sample.platform id) 1 ["Combine Shape3".toList]
        ⟨[Sample.square 1, Sample.square 2, Sample.square 3], 0, 0, false, false, []⟩ =
      .ok (true,
        ⟨[Sample.square 1,
          { Sample.square 3 with
            m_Shape := .Combined (.Rectangle 0 0 3 3) .Empty .UNION },
          { Sample.square 2 with m_IsCombined := true },
          Sample.square 3], 0, 0, false, false, []⟩) ∧
    Sample.graph (ReadOptions (Sample.parser Sample.parentAfter) (Sample.platform id) 10
        Sample.emptyMeter) =
      .ok [(.Rectangle 0 0 1 1, false),
           (.Combined (.Rectangle 0 0 3 3) .Empty .UNION, false),
           (.Rectangle 0 0 2 2, true),
           (.Rectangle 0 0 3 3, false)] := by
  decide

/-- C8: a combine directive whose parent reference resolves to the directive's
own index makes `CreateCombinedShape` return false after logging one error; the
shape list and every other member are unchanged, whatever the platform and the
remaining operands are. -/
theorem C8_self_reference_rejected (platform : Platform) (shapeId : Nat) (first : WString)
    (rest : List WString) (m : MeterShape) (hlen : 8 ≤ first.length)
    (hshape : wcsnicmpEq (first.drop 8) "SHAPE".toList 5 = true)
    (hself : getShapeId ((first.drop 8).drop 5) = shapeId) :
    CreateCombinedShape platform shapeId (first :: rest) m =
      .ok (false,
        { m with log := m.log ++ [LogEntry.Error "%s %s \"%s\""
          ["Shape".toList ++ to_wstring (shapeId + 1), "cannot combine with:".toList,
           first.drop 8]] }) := by
  unfold CreateCombinedShape
  simp only [advance, hlen, if_true, hshape, hself, showError, LogErrorF]

/-- Witness for C8: `Combine Shape1` as the first declaration (`shapeId` 0), with
an operand after it, on a list of three squares. -/
theorem C8_self_reference_witness :
    8 ≤ "Combine Shape1".toList.length ∧
    wcsnicmpEq ("Combine Shape1".toList.drop 8) "SHAPE".toList 5 = true ∧
    getShapeId (("Combine Shape1".toList.drop 8).drop 5) = 0 ∧
    CreateCombinedShape (Sample.platform id) 0
        ("Combine Shape1".toList :: ["Union Shape2".toList])
        ⟨[Sample.square 1, Sample.square 2, Sample.square 3], 0, 0, false, false, []⟩ =
      .ok (false,
        { (⟨[Sample.square 1, Sample.square 2, Sample.square 3], 0, 0, false, false, []⟩ :
            MeterShape) with
          log := [] ++ [LogEntry.Error "%s %s \"%s\""
            ["Shape".toList ++ to_wstring (0 + 1), "cannot combine with:".toList,
             "Combine Shape1".toList.drop 8]] }) :=
  ⟨by decide, by decide, by decide,
   C8_self_reference_rejected (Sample.platform id) 0 "Combine Shape1".toList
     ["Union Shape2".toList]
     ⟨[Sample.square 1, Sample.square 2, Sample.square 3], 0, 0, false, false, []⟩
     (by decide) (by decide) (by decide)⟩


/-- C9, counterexample to the claim as stated: in a configuration with two
combine directives, in either order of visit the directive visited first is
rejected (its operand `Shape4` is out of range), the second pass ends there
with one logged error and only the first directive's clone in the list, although
`CreateCombinedShape` would accept the other directive in the state reached. -/
theorem C9_rejected_directive_ends_second_pass :
    (Sample.graph (ReadOptions (Sample.parser Sample.twoDirectives) (Sample.platform id) 10
        Sample.emptyMeter) =
      .ok [(.Rectangle 0 0 10 10, true),
           (.Combined (.Rectangle 0 0 10 10) .Empty .UNION, false),
           (.Rectangle 0 0 50 50, false)] ∧
     (ReadOptions (Sample.parser Sample.twoDirectives) (Sample.platform id) 10
        Sample.emptyMeter).map (fun m => m.log.length) = .ok 1 ∧
     Sample.acceptsAfter (ReadOptions (Sample.parser Sample.twoDirectives) (Sample.platform id) 10
        Sample.emptyMeter) 2 ["Combine Shape".toList, "Union Shape4".toList] = .ok true) ∧
    (Sample.graph (ReadOptions (Sample.parser Sample.twoDirectives)
        (Sample.platform List.reverse) 10 Sample.emptyMeter) =
      .ok [(.Rectangle 0 0 10 10, true),
           (.Rectangle 0 0 50 50, false),
           (.Combined (.Rectangle 0 0 10 10) .Empty .UNION, false)] ∧
     (ReadOptions (Sample.parser Sample.twoDirectives) (Sample.platform List.reverse) 10
        Sample.emptyMeter).map (fun m => m.log.length) = .ok 1 ∧
     Sample.acceptsAfter (ReadOptions (Sample.parser Sample.twoDirectives)
        (Sample.platform List.reverse) 10 Sample.emptyMeter) 1
        ["Combine Shape".toList, "Union Shape4".toList] = .ok true) := by
  decide

/-- C9 as amended.  (1) In the first pass a declaration whose first token starts
with `Combine` builds nothing and, the list being non-empty and the bounds of
its last shape being in the range of the cast to `int`, the loop goes on
with the next key, the directive recorded under its index.  (2) In the second
pass a directive that `CreateCombinedShape` rejects ends the pass: the result is
the state that call left, whatever directives remain.  (3) A directive that is
accepted is followed by the remaining ones. -/
theorem C9_combine_directives_and_the_scan (parser : ConfigParser) (platform : Platform) :
    (∀ (fuel i : Nat) (shape first : WString) (rest : List WString) (m : MeterShape)
        (cs : List (Nat × WString)),
      shape ≠ [] → parser.Tokenize shape "|".toList = first :: rest →
      wcsnicmpEq first "COMBINE".toList 7 = true → m.m_Shapes ≠ [] →
      (∀ back, m.m_Shapes.getLast? = some back →
        (platform.GetBounds back).right.toInt ≠ none ∧
        (platform.GetBounds back).bottom.toInt ≠ none) →
      ∃ m3, updateBounds platform m = .ok m3 ∧ m3.m_Shapes = m.m_Shapes ∧
        shapeLoop parser platform (fuel + 1) i shape m cs =
          shapeLoop parser platform fuel (i + 1) (parser.ReadString (shapeKey (i + 1))) m3
            (cs ++ [(i - 1, shape)])) ∧
    (∀ (shape : Nat × WString) (rest : List (Nat × WString)) (m m1 : MeterShape),
      CreateCombinedShape platform shape.1 (parser.Tokenize shape.2 "|".toList) m =
        .ok (false, m1) →
      combineLoop parser platform (shape :: rest) m = .ok m1) ∧
    (∀ (shape : Nat × WString) (rest : List (Nat × WString)) (m m1 : MeterShape),
      CreateCombinedShape platform shape.1 (parser.Tokenize shape.2 "|".toList) m =
        .ok (true, m1) →
      combineLoop parser platform (shape :: rest) m = combineLoop parser platform rest m1) := by
  refine ⟨?_, ?_, ?_⟩
  · intro fuel i shape first rest m cs hne htok hcomb hshapes hcast
    have hrect := combine_not_rectangle first hcomb
    have hcreate : CreateShape parser platform (parser.Tokenize shape "|".toList) (i - 1) m =
        .ok (true, true, m) := by
      rw [htok]
      simp only [CreateShape, hrect, hcomb, Bool.false_eq_true, if_false, if_true]
    obtain ⟨s, hs⟩ : ∃ s, m.m_Shapes.getLast? = some s :=
      ⟨_, List.getLast?_eq_getLast _ hshapes⟩
    have hupd : ∃ m3, updateBounds platform m = .ok m3 ∧ m3.m_Shapes = m.m_Shapes := by
      obtain ⟨w, hw⟩ := updateExtent_of_toInt m.m_WDefined m.m_W _ (hcast s hs).1
      obtain ⟨v, hv⟩ := updateExtent_of_toInt m.m_HDefined m.m_H _ (hcast s hs).2
      unfold updateBounds
      rw [hs]
      dsimp only
      rw [hw]
      dsimp only
      rw [hv]
      exact ⟨_, rfl, rfl⟩
    obtain ⟨m3, hu, hsh⟩ := hupd
    refine ⟨m3, hu, hsh, ?_⟩
    rw [shapeLoop, if_neg hne]
    simp only [hcreate, if_true, hu]
  · intro shape rest m m1 h
    rw [combineLoop]
    simp only [h]
  · intro shape rest m m1 h
    rw [combineLoop]
    simp only [h]

/-- C10, counterexample to the claim as stated.  (1) A 10x10 square
intersected with a 50x50 square: both squares end up combined, the only shape
that is not combined is the node, whose truncated bounds are 10 by 10, yet the
container is sized 50 by 50.  (2) A single rectangle with the right edge
16777220 read into a meter whose width on entry is 16777219: the comparison is
made in `FLOAT`, where 16777219 becomes 16777220, so the width stays 16777219
and is not the maximum 16777220. -/
theorem C10_combined_shapes_count_in_bounds :
    (ReadOptions (Sample.parser Sample.intersected) (Sample.platform id) 10
        Sample.emptyMeter).map (fun m => (m.m_W, m.m_H)) = .ok (50, 50) ∧
    (ReadOptions (Sample.parser Sample.intersected) (Sample.platform id) 10
        Sample.emptyMeter).map (fun m =>
          (runningMax 0 ((standalone m.m_Shapes).map (rightOf (Sample.platform id))),
           runningMax 0 ((standalone m.m_Shapes).map (bottomOf (Sample.platform id))))) =
      .ok (10, 10) ∧
    Sample.graph (ReadOptions (Sample.parser Sample.intersected) (Sample.platform id) 10
        Sample.emptyMeter) =
      .ok [(.Rectangle 0 0 10 10, true), (.Rectangle 0 0 50 50, true),
           (.Combined (.Combined (.Rectangle 0 0 10 10) .Empty .UNION) (.Rectangle 0 0 50 50)
              .INTERSECT, false)] ∧
    (ReadOptions (Sample.parser Sample.wideRectangle) Sample.pathPlatform 10
        Sample.wideMeter).map (fun m =>
          (m.m_W, m.m_Shapes.map (fun (s : Gfx.Shape) => s.IsCombined),
           runningMax Sample.wideMeter.m_W
             ((standalone m.m_Shapes).map (rightOf Sample.pathPlatform)))) =
      .ok (16777219, [false], 16777220) := by
  decide

theorem plainRectangle_CreateShape (parser : ConfigParser) (platform : Platform)
    (shape : WString) (r : RectangleArgs) (keyId : Nat) (m : MeterShape)
    (hp : plainRectangle parser shape = some r)
    (hexists : platform.DoesShapeExist (platform.newRectangle r.x r.y r.w r.h) = true) :
    (parser.Tokenize shape "|".toList).tail = [] ∧
    CreateShape parser platform (parser.Tokenize shape "|".toList) keyId m =
      .ok (true, false,
        { m with m_Shapes := m.m_Shapes ++ [platform.newRectangle r.x r.y r.w r.h] }) := by
  unfold plainRectangle at hp
  split at hp
  · rename_i shapeName htok
    split_ifs at hp with hprefix
    split at hp
    · rename_i x y w h htok2
      simp only [Option.some.injEq] at hp
      subst hp
      rw [htok]
      refine ⟨rfl, ?_⟩
      dsimp only at hexists
      simp only [CreateShape, hprefix, if_true, htok2, List.length_cons, List.length_nil,
        List.getD_cons_zero, List.getD_cons_succ, createShapeLambda, hexists]
    · cases hp
  · cases hp

theorem updateBounds_plain (platform : Platform) (m : MeterShape) (r : RectangleArgs)
    (hr : r.Plain)
    (hbounds : platform.GetBounds (platform.newRectangle r.x r.y r.w r.h) = rectangleBounds r)
    (hW : m.m_WDefined = false) (hH : m.m_HDefined = false)
    (eW : Exact24 m.m_W) (eH : Exact24 m.m_H) :
    updateBounds platform
        { m with m_Shapes := m.m_Shapes ++ [platform.newRectangle r.x r.y r.w r.h] } =
      .ok { m with
        m_Shapes := m.m_Shapes ++ [platform.newRectangle r.x r.y r.w r.h]
        m_W := max m.m_W (r.x + r.w)
        m_H := max m.m_H (r.y + r.h) } := by
  obtain ⟨-, -, -, -, -, -, hxw, hyh⟩ := hr
  unfold updateBounds
  simp only [List.getLast?_concat, hbounds, rectangleBounds, hW, hH]
  rw [updateExtent_exact _ _ eW (exact24_integer _ hxw)]
  dsimp only
  rw [updateExtent_exact _ _ eH (exact24_integer _ hyh), truncate_integer, truncate_integer]

theorem shapeLoop_plain (parser : ConfigParser) (platform : Platform)
    (hb : BuildsPlainRectangles platform) :
    ∀ (rects : List RectangleArgs) (fuel i : Nat) (shape : WString) (m : MeterShape)
      (cs : List (Nat × WString)),
      declaresPlain parser i shape rects = true → (∀ r ∈ rects, r.Plain) →
      m.m_WDefined = false → m.m_HDefined = false → Exact24 m.m_W → Exact24 m.m_H →
      rects.length < fuel →
      shapeLoop parser platform fuel i shape m cs =
        .ok ({ m with
          m_Shapes :=
            m.m_Shapes ++ rects.map (fun r => platform.newRectangle r.x r.y r.w r.h)
          m_W := runningMax m.m_W (rects.map (fun r => r.x + r.w))
          m_H := runningMax m.m_H (rects.map (fun r => r.y + r.h)) }, cs) := by
  intro rects
  induction rects with
  | nil =>
    intro fuel i shape m cs hd _ _ _ _ _ hfuel
    obtain ⟨fuel, rfl⟩ : ∃ k, fuel = k + 1 := ⟨fuel - 1, by simp at hfuel; omega⟩
    simp only [declaresPlain, List.isEmpty_iff] at hd
    rw [shapeLoop, if_pos hd]
    simp [runningMax]
  | cons r rest ih =>
    intro fuel i shape m cs hd hplain hW hH eW eH hfuel
    obtain ⟨fuel, rfl⟩ : ∃ k, fuel = k + 1 := ⟨fuel - 1, by simp at hfuel; omega⟩
    simp only [declaresPlain, Bool.and_eq_true, Bool.not_eq_true', List.isEmpty_eq_false,
      beq_iff_eq] at hd
    obtain ⟨⟨hne, hp⟩, hrest⟩ := hd
    have hr := hplain r (List.mem_cons_self _ _)
    obtain ⟨hexists, hbounds⟩ := hb r hr
    obtain ⟨htail, hcreate⟩ := plainRectangle_CreateShape parser platform shape r (i - 1) m hp
      hexists
    have hmods : ParseModifiers parser 2 [] false
        { m with m_Shapes := m.m_Shapes ++ [platform.newRectangle r.x r.y r.w r.h] } =
        .ok { m with m_Shapes := m.m_Shapes ++ [platform.newRectangle r.x r.y r.w r.h] } := by
      rw [ParseModifiers, if_neg (by simp)]
      rfl
    rw [shapeLoop, if_neg hne]
    simp only [hcreate, htail, hmods, Bool.false_eq_true, if_false,
      updateBounds_plain platform m r hr hbounds hW hH eW eH]
    have e1 : Exact24 (max m.m_W (r.x + r.w)) := by
      obtain ⟨-, -, -, -, -, -, hxw, -⟩ := hr
      unfold Exact24 at eW hxw ⊢
      omega
    have e2 : Exact24 (max m.m_H (r.y + r.h)) := by
      obtain ⟨-, -, -, -, -, -, -, hyh⟩ := hr
      unfold Exact24 at eH hyh ⊢
      omega
    rw [ih fuel (i + 1) _
      { m with
        m_Shapes := m.m_Shapes ++ [platform.newRectangle r.x r.y r.w r.h]
        m_W := max m.m_W (r.x + r.w)
        m_H := max m.m_H (r.y + r.h) }
      cs hrest (fun u hu => hplain u (List.mem_cons_of_mem _ hu)) hW hH
      e1 e2 (by simp at hfuel; omega)]
    simp [runningMax]

/-- C10 as amended: when neither dimension is defined explicitly, (1) with
more fuel than the number of declarations before the first empty key the
embedding never runs out of fuel; (2) whenever `ReadOptions` returns, the first
pass returned a list of shapes and, in each dimension, if the value on entry
and the truncated bounds of those shapes have a magnitude below `2^24` (where
the conversion of the size to `FLOAT` in the comparison is exact), the result is
the running maximum, from the value on entry, of the truncated bounds of every
shape of that list, whether or not the second pass marks it combined; the
second pass contributes nothing; (3) for a configuration whose declarations are
plain rectangles `(x, y, w, h)` with `w, h > 0` and values in that range, and no
combine directive, on shape classes that report the bounds of the spec for a
rectangle (and a map that, being empty, is visited as empty), `ReadOptions`
returns with those rectangles as its shapes and with the maxima of `x + w` and
`y + h`, from the values on entry, as width and height. -/
theorem C10_size_is_running_max_of_first_pass (parser : ConfigParser) (platform : Platform)
    (fuel : Nat) (m : MeterShape) (hW : m.m_WDefined = false) (hH : m.m_HDefined = false) :
    (∀ k, k < fuel →
      (if k = 0 then parser.ReadString "Shape".toList
        else parser.ReadString (shapeKey (1 + k))) = [] →
      ReadOptions parser platform fuel m ≠ .error .outOfFuel) ∧
    (∀ n, ReadOptions parser platform fuel m = .ok n →
      ∃ m1 cs,
        shapeLoop parser platform fuel 1 (parser.ReadString "Shape".toList) (Dispose m) [] =
          .ok (m1, cs) ∧
        (Exact24 m.m_W →
          (∀ s ∈ m1.m_Shapes, (platform.GetBounds s).right.exact24 = true) →
          n.m_W = runningMax m.m_W (m1.m_Shapes.map (rightOf platform))) ∧
        (Exact24 m.m_H →
          (∀ s ∈ m1.m_Shapes, (platform.GetBounds s).bottom.exact24 = true) →
          n.m_H = runningMax m.m_H (m1.m_Shapes.map (bottomOf platform)))) ∧
    (∀ rects : List RectangleArgs,
      declaresPlain parser 1 (parser.ReadString "Shape".toList) rects = true →
      (∀ r ∈ rects, r.Plain) → BuildsPlainRectangles platform → platform.mapOrder [] = [] →
      Exact24 m.m_W → Exact24 m.m_H → rects.length < fuel →
      ∃ n, ReadOptions parser platform fuel m = .ok n ∧
        n.m_Shapes = rects.map (fun r => platform.newRectangle r.x r.y r.w r.h) ∧
        n.m_W = runningMax m.m_W (rects.map (fun r => r.x + r.w)) ∧
        n.m_H = runningMax m.m_H (rects.map (fun r => r.y + r.h))) := by
  refine ⟨fun k hk he => ReadOptions_ne_outOfFuel parser platform k fuel m hk he, ?_, ?_⟩
  · intro n h
    unfold ReadOptions at h
    cases hl : shapeLoop parser platform fuel 1 (parser.ReadString "Shape".toList) (Dispose m) []
      with
    | error e => rw [hl] at h; cases h
    | ok r =>
      obtain ⟨m1, cs⟩ := r
      rw [hl] at h
      dsimp only at h
      have hinit : SizeTracksShapes platform m.m_W m.m_H (Dispose m) :=
        ⟨hW, hH, fun _ _ => rfl, fun _ _ => rfl⟩
      obtain ⟨-, -, t1, t2⟩ :=
        shapeLoop_SizeTracksShapes parser platform _ _ _ _ _ _ _ _ _ hinit hl
      obtain ⟨s1, s2⟩ := combineLoop_size parser platform _ _ _ h
      exact ⟨m1, cs, rfl, fun e0 hall => s1.trans (t1 e0 hall),
        fun e0 hall => s2.trans (t2 e0 hall)⟩
  · intro rects hd hplain hb hmap eW eH hfuel
    have hloop := shapeLoop_plain parser platform hb rects fuel 1
      (parser.ReadString "Shape".toList) (Dispose m) [] hd hplain hW hH eW eH hfuel
    unfold ReadOptions
    rw [hloop]
    dsimp only
    rw [hmap, combineLoop]
    exact ⟨_, rfl, by simp [Dispose], rfl, rfl⟩

/-- Witness for C9 as amended, on the configuration with two directives: the
first-pass step at the declaration `Combine Shape | Union Shape4`, the rejected
directive at index 1 followed by another one, and an accepted directive followed
by another one. -/
theorem C9_combine_directives_witness :
    ("Combine Shape | Union Shape4".toList ≠ [] ∧
      (Sample.parser Sample.twoDirectives).Tokenize "Combine Shape | Union Shape4".toList
        "|".toList = "Combine Shape".toList :: ["Union Shape4".toList] ∧
      wcsnicmpEq "Combine Shape".toList "COMBINE".toList 7 = true ∧
      Sample.twoSquares.m_Shapes ≠ [] ∧
      (∀ back, Sample.twoSquares.m_Shapes.getLast? = some back →
        ((Sample.platform id).GetBounds back).right.toInt ≠ none ∧
        ((Sample.platform id).GetBounds back).bottom.toInt ≠ none) ∧
      ∃ m3, updateBounds (Sample.platform id) Sample.twoSquares = .ok m3 ∧
        m3.m_Shapes = Sample.twoSquares.m_Shapes ∧
        shapeLoop (Sample.parser Sample.twoDirectives) (Sample.platform id) (5 + 1) 2
            "Combine Shape | Union Shape4".toList Sample.twoSquares [] =
          shapeLoop (Sample.parser Sample.twoDirectives) (Sample.platform id) 5 (2 + 1)
            ((Sample.parser Sample.twoDirectives).ReadString (shapeKey (2 + 1))) m3
            ([] ++ [(2 - 1, "Combine Shape | Union Shape4".toList)])) ∧
    (CreateCombinedShape (Sample.platform id) 1
        ((Sample.parser Sample.twoDirectives).Tokenize "Combine Shape | Union Shape4".toList
          "|".toList) Sample.twoSquares =
        .ok (false, Sample.stateOf (CreateCombinedShape (Sample.platform id) 1
          ["Combine Shape".toList, "Union Shape4".toList] Sample.twoSquares)) ∧
      combineLoop (Sample.parser Sample.twoDirectives) (Sample.platform id)
        ((1, "Combine Shape | Union Shape4".toList) ::
          [(2, "Combine Shape | Union Shape4".toList)]) Sample.twoSquares =
        .ok (Sample.stateOf (CreateCombinedShape (Sample.platform id) 1
          ["Combine Shape".toList, "Union Shape4".toList] Sample.twoSquares))) ∧
    (CreateCombinedShape (Sample.platform id) 2
        ((Sample.parser Sample.twoDirectives).Tokenize "Combine Shape | Intersect Shape2".toList
          "|".toList) Sample.twoSquares =
        .ok (true, Sample.stateOf (CreateCombinedShape (Sample.platform id) 2
          ["Combine Shape".toList, "Intersect Shape2".toList] Sample.twoSquares)) ∧
      combineLoop (Sample.parser Sample.twoDirectives) (Sample.platform id)
        ((2, "Combine Shape | Intersect Shape2".toList) ::
          [(3, "Combine Shape2".toList)]) Sample.twoSquares =
        combineLoop (Sample.parser Sample.twoDirectives) (Sample.platform id)
          [(3, "Combine Shape2".toList)]
          (Sample.stateOf (CreateCombinedShape (Sample.platform id) 2
            ["Combine Shape".toList, "Intersect Shape2".toList] Sample.twoSquares))) :=
  ⟨⟨by decide, by decide, by decide, by decide,
     fun back hback => by cases hback; decide,
     (C9_combine_directives_and_the_scan (Sample.parser Sample.twoDirectives)
       (Sample.platform id)).1 5 2 "Combine Shape | Union Shape4".toList
       "Combine Shape".toList ["Union Shape4".toList] Sample.twoSquares [] (by decide)
       (by decide) (by decide) (by decide) (fun back hback => by cases hback; decide)⟩,
   ⟨by decide,
     (C9_combine_directives_and_the_scan (Sample.parser Sample.twoDirectives)
       (Sample.platform id)).2.1 (1, "Combine Shape | Union Shape4".toList) _ _ _ (by decide)⟩,
   ⟨by decide,
     (C9_combine_directives_and_the_scan (Sample.parser Sample.twoDirectives)
       (Sample.platform id)).2.2 (2, "Combine Shape | Intersect Shape2".toList) _ _ _
       (by decide)⟩⟩

/-- Witness for C10 as amended: two plain rectangles `(5, 5, 10, 20)` and
`(0, 0, 30, 10)` read into the empty meter; the key `Shape3` is empty, fuel 10
is enough, and the size is 30 by 25, the maxima of `x + w` and of `y + h`. -/
theorem C10_size_witness :
    Sample.emptyMeter.m_WDefined = false ∧ Sample.emptyMeter.m_HDefined = false ∧
    ((2 : Nat) < 10 ∧
      (if (2 : Nat) = 0 then (Sample.parser Sample.plainRectangles).ReadString "Shape".toList
        else (Sample.parser Sample.plainRectangles).ReadString (shapeKey (1 + 2))) = [] ∧
      ReadOptions (Sample.parser Sample.plainRectangles) Sample.pathPlatform 10
        Sample.emptyMeter ≠ .error .outOfFuel) ∧
    (ReadOptions (Sample.parser Sample.plainRectangles) Sample.pathPlatform 10
        Sample.emptyMeter =
      .ok (Sample.finalState (ReadOptions (Sample.parser Sample.plainRectangles)
        Sample.pathPlatform 10 Sample.emptyMeter)) ∧
      (Sample.finalState (ReadOptions (Sample.parser Sample.plainRectangles)
        Sample.pathPlatform 10 Sample.emptyMeter)).m_W = 30 ∧
      (Sample.finalState (ReadOptions (Sample.parser Sample.plainRectangles)
        Sample.pathPlatform 10 Sample.emptyMeter)).m_H = 25 ∧
      ∃ m1 cs,
        shapeLoop (Sample.parser Sample.plainRectangles) Sample.pathPlatform 10 1
            ((Sample.parser Sample.plainRectangles).ReadString "Shape".toList)
            (Dispose Sample.emptyMeter) [] = .ok (m1, cs) ∧
        (Exact24 Sample.emptyMeter.m_W →
          (∀ s ∈ m1.m_Shapes, (Sample.pathPlatform.GetBounds s).right.exact24 = true) →
          (Sample.finalState (ReadOptions (Sample.parser Sample.plainRectangles)
              Sample.pathPlatform 10 Sample.emptyMeter)).m_W =
            runningMax Sample.emptyMeter.m_W (m1.m_Shapes.map (rightOf Sample.pathPlatform))) ∧
        (Exact24 Sample.emptyMeter.m_H →
          (∀ s ∈ m1.m_Shapes, (Sample.pathPlatform.GetBounds s).bottom.exact24 = true) →
          (Sample.finalState (ReadOptions (Sample.parser Sample.plainRectangles)
              Sample.pathPlatform 10 Sample.emptyMeter)).m_H =
            runningMax Sample.emptyMeter.m_H
              (m1.m_Shapes.map (bottomOf Sample.pathPlatform)))) ∧
    (declaresPlain (Sample.parser Sample.plainRectangles) 1
        ((Sample.parser Sample.plainRectangles).ReadString "Shape".toList)
        [⟨5, 5, 10, 20⟩, ⟨0, 0, 30, 10⟩] = true ∧
      (∀ r ∈ [(⟨5, 5, 10, 20⟩ : RectangleArgs), ⟨0, 0, 30, 10⟩], r.Plain) ∧
      BuildsPlainRectangles Sample.pathPlatform ∧ Sample.pathPlatform.mapOrder [] = [] ∧
      Exact24 Sample.emptyMeter.m_W ∧ Exact24 Sample.emptyMeter.m_H ∧
      [(⟨5, 5, 10, 20⟩ : RectangleArgs), ⟨0, 0, 30, 10⟩].length < 10 ∧
      ∃ n, ReadOptions (Sample.parser Sample.plainRectangles) Sample.pathPlatform 10
          Sample.emptyMeter = .ok n ∧
        n.m_Shapes = [(⟨5, 5, 10, 20⟩ : RectangleArgs), ⟨0, 0, 30, 10⟩].map
          (fun r => Sample.pathPlatform.newRectangle r.x r.y r.w r.h) ∧
        n.m_W = runningMax Sample.emptyMeter.m_W
          ([(⟨5, 5, 10, 20⟩ : RectangleArgs), ⟨0, 0, 30, 10⟩].map (fun r => r.x + r.w)) ∧
        n.m_H = runningMax Sample.emptyMeter.m_H
          ([(⟨5, 5, 10, 20⟩ : RectangleArgs), ⟨0, 0, 30, 10⟩].map (fun r => r.y + r.h))) :=
  ⟨rfl, rfl,
   ⟨by decide, by decide,
    (C10_size_is_running_max_of_first_pass (Sample.parser Sample.plainRectangles)
      Sample.pathPlatform 10 Sample.emptyMeter rfl rfl).1 2 (by decide) (by decide)⟩,
   ⟨by decide, by decide, by decide,
    (C10_size_is_running_max_of_first_pass (Sample.parser Sample.plainRectangles)
      Sample.pathPlatform 10 Sample.emptyMeter rfl rfl).2.1 _ (by decide)⟩,
   ⟨by decide, by decide, fun _ _ => ⟨rfl, rfl⟩, rfl, by decide, by decide, by decide,
    (C10_size_is_running_max_of_first_pass (Sample.parser Sample.plainRectangles)
      Sample.pathPlatform 10 Sample.emptyMeter rfl rfl).2.2 [⟨5, 5, 10, 20⟩, ⟨0, 0, 30, 10⟩]
      (by decide) (by decide) (fun _ _ => ⟨rfl, rfl⟩) rfl (by decide) (by decide) (by decide)⟩⟩

/-! ### Prefix tests -/

theorem wcsnicmpEq_common (s p q : WString) (n k : Nat) (h1 : wcsnicmpEq s p n = true)
    (h2 : wcsnicmpEq s q k = true) :
    ((p.take n).map Char.toLower).take (min n k) =
      ((q.take k).map Char.toLower).take (min n k) := by
  unfold wcsnicmpEq at h1 h2
  rw [beq_iff_eq] at h1 h2
  rw [← h1, ← h2, ← List.map_take, ← List.map_take, List.take_take, List.take_take]
  congr 2
  · omega

theorem extend_only (option : WString) (h : wcsnicmpEq option "EXTEND".toList 6 = true) :
    wcsnicmpEq option "FILLCOLOR".toList 9 = false ∧
    wcsnicmpEq option "STROKECOLOR".toList 11 = false ∧
    wcsnicmpEq option "STROKEWIDTH".toList 11 = false ∧
    wcsnicmpEq option "OFFSET".toList 6 = false ∧
    wcsnicmpEq option "ROTATE".toList 6 = false := by
  refine ⟨?_, ?_, ?_, ?_, ?_⟩ <;>
    (rw [Bool.eq_false_iff]
     intro h2
     exact absurd (wcsnicmpEq_common _ _ _ _ _ h h2) (by decide))

theorem strokeWidth_only (option : WString)
    (h : wcsnicmpEq option "STROKEWIDTH".toList 11 = true) :
    wcsnicmpEq option "FILLCOLOR".toList 9 = false ∧
    wcsnicmpEq option "STROKECOLOR".toList 11 = false := by
  refine ⟨?_, ?_⟩ <;>
    (rw [Bool.eq_false_iff]
     intro h2
     exact absurd (wcsnicmpEq_common _ _ _ _ _ h h2) (by decide))

/-! ### `Extend` -/

theorem parseModifier_recursive_self (parser : ConfigParser)
    (self1 self2 : List WString → MeterShape → Except Fault MeterShape) (m : MeterShape)
    (option : WString) :
    parseModifier parser self1 true m option = parseModifier parser self2 true m option := by
  unfold parseModifier
  simp

theorem ParseModifiers_recursive_depth (parser : ConfigParser) (depth : Nat)
    (args : List WString) (m : MeterShape) :
    ParseModifiers parser (depth + 1) args true m = ParseModifiers parser 1 args true m := by
  rw [ParseModifiers, ParseModifiers]
  have hf : parseModifier parser (fun newArgs m => ParseModifiers parser depth newArgs true m)
      true = parseModifier parser (fun newArgs m => ParseModifiers parser 0 newArgs true m)
      true := by
    funext m2 option
    exact parseModifier_recursive_self parser _ _ m2 option
  rw [hf]

theorem ParseModifiers_depth (parser : ConfigParser) (depth : Nat) (args : List WString)
    (recursive : Bool) (m : MeterShape) :
    ParseModifiers parser (depth + 2) args recursive m =
      ParseModifiers parser 2 args recursive m := by
  rw [ParseModifiers, ParseModifiers]
  have hs : (fun newArgs m => ParseModifiers parser (depth + 1) newArgs true m) =
      (fun newArgs m => ParseModifiers parser 1 newArgs true m) := by
    funext a m2
    exact ParseModifiers_recursive_depth parser depth a m2
  rw [hs]

theorem parseModifier_nested_extend (parser : ConfigParser)
    (self : List WString → MeterShape → Except Fault MeterShape) (m : MeterShape)
    (option : WString) (h : wcsnicmpEq option "EXTEND".toList 6 = true) :
    parseModifier parser self true m option =
      .ok (LogErrorF "Extend cannot be used recursively" [] m) := by
  obtain ⟨h1, h2, h3, h4, h5⟩ := extend_only option h
  unfold parseModifier
  simp only [h1, h2, h3, h4, h5, h, Bool.false_eq_true, if_false, if_true, not_true_eq_false]

/-- C11: `Extend` expands one level.  (1) Two levels of calls of `ParseModifiers`
are enough for every argument list and every configuration: the result with
any larger bound is the result with bound two, and it is never a fuel fault.
(2) A call made with `recursive` true makes no further call: one level is enough
for it.  (3) In such a call an `Extend` token yields the entry state with one
error appended to the log, whatever the parser holds and whatever the recursive
call would do: no key is read and no shape is changed. -/
theorem C11_extend_expands_one_level (parser : ConfigParser) :
    (∀ (depth : Nat) (args : List WString) (recursive : Bool) (m : MeterShape),
      ParseModifiers parser (depth + 2) args recursive m =
        ParseModifiers parser 2 args recursive m ∧
      ParseModifiers parser 2 args recursive m ≠ .error .outOfFuel) ∧
    (∀ (depth : Nat) (args : List WString) (m : MeterShape),
      ParseModifiers parser (depth + 1) args true m = ParseModifiers parser 1 args true m ∧
      ParseModifiers parser 1 args true m ≠ .error .outOfFuel) ∧
    (∀ (self : List WString → MeterShape → Except Fault MeterShape) (m : MeterShape)
        (option : WString),
      wcsnicmpEq option "EXTEND".toList 6 = true →
      parseModifier parser self true m option =
        .ok { m with log := m.log ++ [LogEntry.Error "Extend cannot be used recursively" []] }) :=
  ⟨fun depth args recursive m =>
      ⟨ParseModifiers_depth parser depth args recursive m,
       ParseModifiers_ne_outOfFuel parser 0 args recursive m⟩,
   fun depth args m =>
      ⟨ParseModifiers_recursive_depth parser depth args m,
       ParseModifiers_recursive_ne_outOfFuel parser 0 args m⟩,
   fun self m option h => parseModifier_nested_extend parser self m option h⟩

/-- Witness for C11: the key `Style` extends itself; the nested `Extend Style` is
answered by the error entry, and the whole configuration is read with the
warning of `StrokeWidth -5` and that error as the only log entries. -/
theorem C11_extend_witness :
    wcsnicmpEq "Extend Style".toList "EXTEND".toList 6 = true ∧
    parseModifier (Sample.parser Sample.selfExtending)
        (fun newArgs m => ParseModifiers (Sample.parser Sample.selfExtending) 1 newArgs true m)
        true ⟨[Sample.square 50], 0, 0, false, false, []⟩ "Extend Style".toList =
      .ok { (⟨[Sample.square 50], 0, 0, false, false, []⟩ : MeterShape) with
        log := [] ++ [LogEntry.Error "Extend cannot be used recursively" []] } ∧
    (ReadOptions (Sample.parser Sample.selfExtending) (Sample.platform id) 10
        Sample.emptyMeter).map (fun m => m.log) =
      .ok [LogEntry.Warning "StrokeWidth must not be negative" [],
           LogEntry.Error "Extend cannot be used recursively" []] :=
  ⟨by decide,
   (C11_extend_expands_one_level (Sample.parser Sample.selfExtending)).2.2 _
     ⟨[Sample.square 50], 0, 0, false, false, []⟩ "Extend Style".toList (by decide),
   by decide⟩

/-! ### `StrokeWidth` -/

theorem modifyBack_concat (f : Gfx.Shape → Gfx.Shape) (m : MeterShape)
    (front : List Gfx.Shape) (s : Gfx.Shape) (h : m.m_Shapes = front ++ [s]) :
    modifyBack f m = { m with m_Shapes := front ++ [f s] } := by
  unfold modifyBack modifyShape
  rw [h]
  simp

theorem parseModifier_strokeWidth (parser : ConfigParser)
    (self : List WString → MeterShape → Except Fault MeterShape) (recursive : Bool)
    (m : MeterShape) (option : WString)
    (h : wcsnicmpEq option "STROKEWIDTH".toList 11 = true) :
    parseModifier parser self recursive m option =
      if parser.ParseInt (option.drop 11) 0 < 0 then
        .ok (modifyBack (Gfx.Shape.SetStrokeWidth 0)
          (LogWarningF "StrokeWidth must not be negative" [] m))
      else .ok (modifyBack (Gfx.Shape.SetStrokeWidth (parser.ParseInt (option.drop 11) 0)) m) := by
  obtain ⟨h1, h2⟩ := strokeWidth_only option h
  unfold parseModifier
  simp only [h1, h2, h, Bool.false_eq_true, if_false, if_true]

theorem StrokeNonNegative_modifyBack (f : Gfx.Shape → Gfx.Shape) (m : MeterShape)
    (hf : ∀ s, 0 ≤ s.m_StrokeWidth → 0 ≤ (f s).m_StrokeWidth) (h : StrokeNonNegative m) :
    StrokeNonNegative (modifyBack f m) := by
  unfold modifyBack modifyShape
  split
  · next s hs =>
    intro t ht
    rcases List.mem_or_eq_of_mem_set ht with ht | ht
    · exact h t ht
    · subst ht
      exact hf s (h s (List.get?_mem hs))
  · exact h

theorem StrokeNonNegative_setStrokeWidth (w : Int) (hw : 0 ≤ w) (m : MeterShape)
    (h : StrokeNonNegative m) :
    StrokeNonNegative (modifyBack (Gfx.Shape.SetStrokeWidth w) m) := by
  unfold modifyBack modifyShape
  split
  · next s hs =>
    intro t ht
    rcases List.mem_or_eq_of_mem_set ht with ht | ht
    · exact h t ht
    · subst ht
      exact hw
  · exact h

theorem parseModifier_StrokeNonNegative (parser : ConfigParser)
    (self : List WString → MeterShape → Except Fault MeterShape)
    (hself : ∀ a m n, self a m = .ok n → StrokeNonNegative m → StrokeNonNegative n)
    (recursive : Bool) (m : MeterShape) (option : WString) (n : MeterShape)
    (h : parseModifier parser self recursive m option = .ok n) (hm : StrokeNonNegative m) :
    StrokeNonNegative n := by
  unfold parseModifier at h
  dsimp only at h
  split_ifs at h with c1 c2 c3 c4 c5 c6 c7 c8 c9 c10 c11 <;>
    first
    | (simp only [Except.ok.injEq] at h
       subst h
       first
       | exact hm
       | exact StrokeNonNegative_setStrokeWidth _ (by omega) _ hm
       | exact StrokeNonNegative_modifyBack _ _ (fun _ hs => hs) hm)
    | skip
  refine foldlM_related (fun a b => StrokeNonNegative a → StrokeNonNegative b)
    (fun _ hx => hx) (fun _ _ _ hab hbc hx => hbc (hab hx)) _ ?_ _ m n h hm
  intro m2 extend n2 h2
  split_ifs at h2
  · exact hself _ _ _ h2
  · simp only [Except.ok.injEq] at h2
    subst h2
    exact fun hx => hx

theorem ParseModifiers_StrokeNonNegative (parser : ConfigParser) :
    ∀ (depth : Nat) (args : List WString) (recursive : Bool) (m n : MeterShape),
      ParseModifiers parser depth args recursive m = .ok n →
      StrokeNonNegative m → StrokeNonNegative n := by
  intro depth
  induction depth with
  | zero =>
    intro args recursive m n h
    simp [ParseModifiers] at h
  | succ depth ih =>
    intro args recursive m n h
    rw [ParseModifiers] at h
    split at h
    · cases h
    · exact foldlM_related (fun a b => StrokeNonNegative a → StrokeNonNegative b)
        (fun _ hx => hx) (fun _ _ _ hab hbc hx => hbc (hab hx)) _
        (fun m2 option n2 h2 =>
          parseModifier_StrokeNonNegative parser _ (fun a m3 n3 h3 => ih a true m3 n3 h3)
            recursive m2 option n2 h2)
        args m n h

/-- C12: a `StrokeWidth` modifier met by `ParseModifiers`, with `n` the integer
parsed after the keyword.  (1) When `n` is negative the last shape gets the
stroke width 0, the other shapes are unchanged and one warning is appended to
the log; when `n` is not negative the last shape gets the stroke width `n` and
the log is unchanged.  (2) The same holds for `ParseModifiers` called with that
modifier alone.  (3) `ParseModifiers` never turns a list of shapes without a
negative stroke width into one with a negative stroke width. -/
theorem C12_stroke_width_clamped (parser : ConfigParser) :
    (∀ (self : List WString → MeterShape → Except Fault MeterShape) (recursive : Bool)
        (m : MeterShape) (front : List Gfx.Shape) (s : Gfx.Shape) (option : WString),
      wcsnicmpEq option "STROKEWIDTH".toList 11 = true → m.m_Shapes = front ++ [s] →
      parseModifier parser self recursive m option =
        if parser.ParseInt (option.drop 11) 0 < 0 then
          .ok { m with
            m_Shapes := front ++ [{ s with m_StrokeWidth := 0 }]
            log := m.log ++ [LogEntry.Warning "StrokeWidth must not be negative" []] }
        else
          .ok { m with
            m_Shapes := front ++ [{ s with m_StrokeWidth := parser.ParseInt (option.drop 11) 0 }] }) ∧
    (∀ (depth : Nat) (recursive : Bool) (m : MeterShape) (front : List Gfx.Shape)
        (s : Gfx.Shape) (option : WString),
      wcsnicmpEq option "STROKEWIDTH".toList 11 = true → m.m_Shapes = front ++ [s] →
      ParseModifiers parser (depth + 1) [option] recursive m =
        if parser.ParseInt (option.drop 11) 0 < 0 then
          .ok { m with
            m_Shapes := front ++ [{ s with m_StrokeWidth := 0 }]
            log := m.log ++ [LogEntry.Warning "StrokeWidth must not be negative" []] }
        else
          .ok { m with
            m_Shapes := front ++ [{ s with m_StrokeWidth := parser.ParseInt (option.drop 11) 0 }] }) ∧
    (∀ (depth : Nat) (args : List WString) (recursive : Bool) (m n : MeterShape),
      ParseModifiers parser depth args recursive m = .ok n →
      (∀ s ∈ m.m_Shapes, 0 ≤ s.m_StrokeWidth) → ∀ s ∈ n.m_Shapes, 0 ≤ s.m_StrokeWidth) := by
  have step : ∀ (self : List WString → MeterShape → Except Fault MeterShape) (recursive : Bool)
      (m : MeterShape) (front : List Gfx.Shape) (s : Gfx.Shape) (option : WString),
      wcsnicmpEq option "STROKEWIDTH".toList 11 = true → m.m_Shapes = front ++ [s] →
      parseModifier parser self recursive m option =
        if parser.ParseInt (option.drop 11) 0 < 0 then
          .ok { m with
            m_Shapes := front ++ [{ s with m_StrokeWidth := 0 }]
            log := m.log ++ [LogEntry.Warning "StrokeWidth must not be negative" []] }
        else
          .ok { m with
            m_Shapes := front ++ [{ s with m_StrokeWidth := parser.ParseInt (option.drop 11) 0 }] } := by
    intro self recursive m front s option h hs
    rw [parseModifier_strokeWidth parser self recursive m option h]
    have hw : (LogWarningF "StrokeWidth must not be negative" [] m).m_Shapes = front ++ [s] := hs
    rw [modifyBack_concat _ _ front s hw, modifyBack_concat _ _ front s hs]
    rfl
  refine ⟨step, ?_, fun depth args recursive m n h hm =>
    ParseModifiers_StrokeNonNegative parser depth args recursive m n h hm⟩
  intro depth recursive m front s option h hs
  rw [ParseModifiers]
  have hne : m.m_Shapes ≠ [] := by
    rw [hs]
    simp
  rw [if_neg hne, List.foldlM_cons, step _ recursive m front s option h hs]
  split_ifs <;> rfl

/-- Witness for C12: `StrokeWidth -5` and `StrokeWidth 3` applied to a square of
stroke width one. -/
theorem C12_stroke_width_witness :
    wcsnicmpEq "StrokeWidth -5".toList "STROKEWIDTH".toList 11 = true ∧
    (⟨[Sample.square 50], 0, 0, false, false, []⟩ : MeterShape).m_Shapes =
      [] ++ [Sample.square 50] ∧
    ParseModifiers (Sample.parser []) (0 + 1) ["StrokeWidth -5".toList] false
        ⟨[Sample.square 50], 0, 0, false, false, []⟩ =
      (if (Sample.parser []).ParseInt ("StrokeWidth -5".toList.drop 11) 0 < 0 then
        .ok { (⟨[Sample.square 50], 0, 0, false, false, []⟩ : MeterShape) with
          m_Shapes := [] ++ [{ Sample.square 50 with m_StrokeWidth := 0 }]
          log := [] ++ [LogEntry.Warning "StrokeWidth must not be negative" []] }
      else
        .ok { (⟨[Sample.square 50], 0, 0, false, false, []⟩ : MeterShape) with
          m_Shapes := [] ++ [{ Sample.square 50 with
            m_StrokeWidth := (Sample.parser []).ParseInt ("StrokeWidth -5".toList.drop 11) 0 }] }) ∧
    ParseModifiers (Sample.parser []) 1 ["StrokeWidth -5".toList] false
        ⟨[Sample.square 50], 0, 0, false, false, []⟩ =
      .ok ⟨[{ Sample.square 50 with m_StrokeWidth := 0 }], 0, 0, false, false,
        [LogEntry.Warning "StrokeWidth must not be negative" []]⟩ ∧
    ParseModifiers (Sample.parser []) 1 ["StrokeWidth 3".toList] false
        ⟨[Sample.square 50], 0, 0, false, false, []⟩ =
      .ok ⟨[{ Sample.square 50 with m_StrokeWidth := 3 }], 0, 0, false, false, []⟩ ∧
    (∀ s ∈ (⟨[Sample.square 50], 0, 0, false, false, []⟩ : MeterShape).m_Shapes,
      0 ≤ s.m_StrokeWidth) ∧
    (∀ s ∈ (⟨[{ Sample.square 50 with m_StrokeWidth := 0 }], 0, 0, false, false,
        [LogEntry.Warning "StrokeWidth must not be negative" []]⟩ : MeterShape).m_Shapes,
      0 ≤ s.m_StrokeWidth) :=
  ⟨by decide, by decide,
   (C12_stroke_width_clamped (Sample.parser [])).2.1 0 false
     ⟨[Sample.square 50], 0, 0, false, false, []⟩ [] (Sample.square 50)
     "StrokeWidth -5".toList (by decide) (by decide),
   by decide, by decide, by decide,
   (C12_stroke_width_clamped (Sample.parser [])).2.2 1 ["StrokeWidth -5".toList] false
     ⟨[Sample.square 50], 0, 0, false, false, []⟩ _ (by decide) (by decide)⟩

/-- C14, the code at the failing input: when the first declaration is a combine
directive, `CreateShape` accepts it without appending a shape and the bounds
update reads `back()` of the empty list. -/
theorem C14_combine_first_reads_back_of_empty_list :
    CreateShape (Sample.parser Sample.combineFirst) (Sample.platform id)
        ((Sample.parser Sample.combineFirst).Tokenize "Combine Shape2".toList "|".toList) 0
        (Dispose Sample.emptyMeter) = .ok (true, true, Dispose Sample.emptyMeter) ∧
    (Dispose Sample.emptyMeter).m_Shapes = [] ∧
    updateBounds (Sample.platform id) (Dispose Sample.emptyMeter) =
      .error .backOfEmptyVector ∧
    ReadOptions (Sample.parser Sample.combineFirst) (Sample.platform id) 10 Sample.emptyMeter =
      .error .backOfEmptyVector := by
  decide

/-- C15, the code at the failing inputs.  One square followed by two directives
that clone it: visited in ascending order both are accepted, visited in the
other order the directive of index 3 inserts at position 2 of a list of length
1.  The configuration with two directives naming `Shape4`: the two orders of
visit give different shape lists and reject different directives. -/
theorem C15_result_depends_on_visiting_order :
    (Sample.graph (ReadOptions (Sample.parser Sample.twoClones) (Sample.platform id) 10
        Sample.emptyMeter) =
      .ok [(.Rectangle 0 0 10 10, true),
           (.Combined (.Rectangle 0 0 10 10) .Empty .UNION, false),
           (.Combined (.Rectangle 0 0 10 10) .Empty .UNION, false)] ∧
     ReadOptions (Sample.parser Sample.twoClones) (Sample.platform List.reverse) 10
        Sample.emptyMeter = .error .insertPastEnd) ∧
    (Sample.graph (ReadOptions (Sample.parser Sample.twoDirectives) (Sample.platform id) 10
        Sample.emptyMeter) =
      .ok [(.Rectangle 0 0 10 10, true),
           (.Combined (.Rectangle 0 0 10 10) .Empty .UNION, false),
           (.Rectangle 0 0 50 50, false)] ∧
     Sample.graph (ReadOptions (Sample.parser Sample.twoDirectives)
        (Sample.platform List.reverse) 10 Sample.emptyMeter) =
      .ok [(.Rectangle 0 0 10 10, true),
           (.Rectangle 0 0 50 50, false),
           (.Combined (.Rectangle 0 0 10 10) .Empty .UNION, false)] ∧
     (ReadOptions (Sample.parser Sample.twoDirectives) (Sample.platform id) 10
        Sample.emptyMeter).map (fun m => m.log) ≠
     (ReadOptions (Sample.parser Sample.twoDirectives) (Sample.platform List.reverse) 10
        Sample.emptyMeter).map (fun m => m.log)) := by
  decide

end MeterShape
